import Mathlib

/-!
# ILS logging core: a shallow embedding

The development follows the three headers of the repository:

* `ILS/ILS_Logger.h`  : the interface `ILogger` (sink operations, translation hook, the four
  leveled calls) and the delegating `Logger`;
* `ILS/ILS_StdLog.h`  : the stream sink `StdLogger` (constructors, copy constructor, destructor);
* `ILS/ILS_Defines.h` : the section bracket macros `ILS_SECTB` / `ILS_SECTE` and the indexed pair.

Conventions of the embedding.

* A C++ call that may throw is a function `W → Res W α`: from a world `W` it either returns a
  value or raises a `Failure`, and in both cases leaves a world behind.
* `std::string` and `const char*` are lists of characters (the terminating NUL is not stored).
* A virtual interface is a record of its virtual methods; a `std::shared_ptr<ILogger>` is an
  `Option` of such a record, `NULL` being `none`.
* `new char[max_msg_size]` and `delete[]` of the message buffer are taken to succeed.
* The C library formatter is a parameter `printf` giving the complete formatted text;
  `vsnprintf` keeps what fits in the buffer.
-/

namespace ILS

/-! ## Failures and effectful calls -/

/-- What a C++ `throw` carries: an object derived from `std::exception` (with its `what()`
text) or any other object. -/
inductive Failure where
  | stdException (what : List Char)
  | other (tag : Nat)
  deriving DecidableEq, Repr

/-- Result of running a C++ call from some world. -/
inductive Res (W α : Type) where
  | ret (a : α) (w : W)
  | raise (f : Failure) (w : W)
  deriving DecidableEq, Repr

/-- The world a call leaves behind, whether it returned or raised. -/
def Res.world {W α : Type} : Res W α → W
  | .ret _ w => w
  | .raise _ w => w

/-- Did the call return normally? -/
def Res.returned {W α : Type} : Res W α → Bool
  | .ret _ _ => true
  | .raise _ _ => false

/-- Sequencing of two calls: a failure of the first skips the second. -/
def Res.andThen {W α β : Type} (r : Res W α) (k : α → W → Res W β) : Res W β :=
  match r with
  | .ret a w => k a w
  | .raise f w => .raise f w

/-- The statement `try { body } catch (...) {}`. -/
def tryCatchAll {W : Type} (body : W → Res W Unit) (w : W) : Res W Unit :=
  match body w with
  | .ret _ w1 => .ret () w1
  | .raise _ w1 => .ret () w1

/-! ## `ILogger` -/

/-- `ILogger::Msg`. -/
abbrev Msg := List Char

/-- `ILogger::LogId`. -/
abbrev LogId := List Char

/-- `ILogger::max_msg_size`. -/
def max_msg_size : Nat := 1024

/-- One variadic argument of a leveled call. -/
inductive Arg where
  | int (i : Int)
  | real (mantissa : Int) (exponent : Int)
  | text (s : List Char)
  deriving DecidableEq, Repr

/-- The formatter of the C library: template and arguments to the complete text. -/
abbrev Printf := Msg → List Arg → Msg

/-- `vsnprintf(str, size, fmt, marker)` followed by reading `str` back as a string: at most
`size - 1` characters of the complete text are stored before the terminating NUL. -/
def vsnprintf (printf : Printf) (size : Nat) (fmt : Msg) (marker : List Arg) : Msg :=
  (printf fmt marker).take (size - 1)

/-- The virtual methods of `ILogger` that the leveled calls and `Logger` go through. -/
structure ILogger (W : Type) where
  infOut : Msg → LogId → W → Res W Unit
  logOut : Msg → LogId → W → Res W Unit
  wrnOut : Msg → LogId → W → Res W Unit
  errOut : Msg → LogId → W → Res W Unit
  msgTranslate : LogId → Msg → W → Res W Msg
  logParam : Int → W → Res W Float

/-- `std::string::find(pat)` from position 0; `none` is `std::string::npos`. -/
def find (str pat : List Char) : Option Nat :=
  match str with
  | [] => if pat = [] then some 0 else none
  | c :: cs =>
    if pat.isPrefixOf (c :: cs) then some 0
    else (find cs pat).map (· + 1)

/-- The loop of the default `ILogger::msgTranslate`,
`while ((start_pos = str.find("%t")) != npos) str[start_pos + 1] = 'f';`,
run for at most `fuel` evaluations of the loop condition; `none` when the fuel is used up
before the loop exits. -/
def msgTranslateLoop : Nat → List Char → Option (List Char)
  | 0, _ => none
  | fuel + 1, str =>
    match find str ['%', 't'] with
    | none => some str
    | some start_pos => msgTranslateLoop fuel (str.set (start_pos + 1) 'f')

/-- The default `ILogger::msgTranslate(id, msg)`: copy `msg`, run the loop, return the copy. -/
def ILogger.msgTranslateDefault (fuel : Nat) (_id : LogId) (msg : Msg) : Option Msg :=
  msgTranslateLoop fuel msg

/-- `ILogger::inf(id, msg, ...)`. -/
def ILogger.inf {W : Type} (printf : Printf) (self : ILogger W)
    (id : LogId) (msg : Msg) (marker : List Arg) : W → Res W Unit :=
  tryCatchAll fun w =>
    (self.msgTranslate id msg w).andThen fun fmt w1 =>
      self.infOut (vsnprintf printf max_msg_size fmt marker) id w1

/-- `ILogger::log(id, msg, ...)`. -/
def ILogger.log {W : Type} (printf : Printf) (self : ILogger W)
    (id : LogId) (msg : Msg) (marker : List Arg) : W → Res W Unit :=
  tryCatchAll fun w =>
    (self.msgTranslate id msg w).andThen fun fmt w1 =>
      self.logOut (vsnprintf printf max_msg_size fmt marker) id w1

/-- `ILogger::wrn(id, msg, ...)`. -/
def ILogger.wrn {W : Type} (printf : Printf) (self : ILogger W)
    (id : LogId) (msg : Msg) (marker : List Arg) : W → Res W Unit :=
  tryCatchAll fun w =>
    (self.msgTranslate id msg w).andThen fun fmt w1 =>
      self.wrnOut (vsnprintf printf max_msg_size fmt marker) id w1

/-- `ILogger::err(id, msg, ...)`. -/
def ILogger.err {W : Type} (printf : Printf) (self : ILogger W)
    (id : LogId) (msg : Msg) (marker : List Arg) : W → Res W Unit :=
  tryCatchAll fun w =>
    (self.msgTranslate id msg w).andThen fun fmt w1 =>
      self.errOut (vsnprintf printf max_msg_size fmt marker) id w1

/-! ## `Logger`, the delegating logger -/

/-- The two slots of `Logger`. -/
structure Logger (W : Type) where
  personal_logger : Option (ILogger W)
  parent_logger : Option (ILogger W)

/-- A `Logger` right after construction: both `shared_ptr` slots are empty. -/
def Logger.fresh {W : Type} : Logger W :=
  { personal_logger := none, parent_logger := none }

/-- `Logger::logger()`. -/
def Logger.logger {W : Type} (self : Logger W) : Option (ILogger W) :=
  if self.personal_logger.isSome then self.personal_logger
  else if self.parent_logger.isSome then self.parent_logger
  else none

/-- `Logger::getPersonalLogger()`. -/
def Logger.getPersonalLogger {W : Type} (self : Logger W) : Option (ILogger W) :=
  self.personal_logger

/-- `Logger::setPersonalLogger(l)`. -/
def Logger.setPersonalLogger {W : Type} (self : Logger W) (l : Option (ILogger W)) : Logger W :=
  { self with personal_logger := l }

/-- `Logger::getParentLogger()`; the body reads `return personal_logger;`. -/
def Logger.getParentLogger {W : Type} (self : Logger W) : Option (ILogger W) :=
  self.personal_logger

/-- `Logger::setParentLogger(l)`; the body reads `personal_logger = l;`. -/
def Logger.setParentLogger {W : Type} (self : Logger W) (l : Option (ILogger W)) : Logger W :=
  { self with personal_logger := l }

/-- `Logger::msgTranslate(id, msg)`. -/
def Logger.msgTranslate {W : Type} (self : Logger W) (id : LogId) (msg : Msg) (w : W) :
    Res W Msg :=
  match self.logger with
  | some l => l.msgTranslate id msg w
  | none => .ret msg w

/-- `Logger::infOut(msg, id)`. -/
def Logger.infOut {W : Type} (self : Logger W) (msg : Msg) (id : LogId) (w : W) : Res W Unit :=
  match self.logger with
  | some l => l.infOut msg id w
  | none => .ret () w

/-- `Logger::logOut(msg, id)`. -/
def Logger.logOut {W : Type} (self : Logger W) (msg : Msg) (id : LogId) (w : W) : Res W Unit :=
  match self.logger with
  | some l => l.logOut msg id w
  | none => .ret () w

/-- `Logger::wrnOut(msg, id)`. -/
def Logger.wrnOut {W : Type} (self : Logger W) (msg : Msg) (id : LogId) (w : W) : Res W Unit :=
  match self.logger with
  | some l => l.wrnOut msg id w
  | none => .ret () w

/-- `Logger::errOut(msg, id)`. -/
def Logger.errOut {W : Type} (self : Logger W) (msg : Msg) (id : LogId) (w : W) : Res W Unit :=
  match self.logger with
  | some l => l.errOut msg id w
  | none => .ret () w

/-- `Logger::logParam(param)`. -/
def Logger.logParam {W : Type} (self : Logger W) (param : Int) (w : W) : Res W Float :=
  match self.logger with
  | some l => l.logParam param w
  | none => .ret 0.0 w

/-- A `Logger` seen through its base `ILogger`: the virtual methods it overrides. -/
def Logger.toILogger {W : Type} (self : Logger W) : ILogger W :=
  { infOut := self.infOut
    logOut := self.logOut
    wrnOut := self.wrnOut
    errOut := self.errOut
    msgTranslate := self.msgTranslate
    logParam := self.logParam }

/-! ## Observing sink invocations -/

/-- The four levels of the leveled calls and of the sink operations. -/
inductive Level where
  | inf | log | wrn | err
  deriving DecidableEq, Repr

/-- One invocation of a sink operation: on which logger, at which level, with which text
and message identifier. -/
structure Call where
  target : Nat
  level : Level
  msg : Msg
  id : LogId
  deriving DecidableEq, Repr

/-- Carry a list of observed invocations next to the world of a result. -/
def Res.withCalls {W α : Type} (calls : List Call) : Res W α → Res (W × List Call) α
  | .ret a w => .ret a (w, calls)
  | .raise f w => .raise f (w, calls)

/-- The logger `p` under observation: every invocation of one of its four sink operations is
first noted, under the name `tag`, in the list of calls, then runs as in `p`. The translation
hook and `logParam` run as in `p` and note nothing. -/
def traced {W : Type} (tag : Nat) (p : ILogger W) : ILogger (W × List Call) :=
  { infOut := fun msg id s =>
      (p.infOut msg id s.1).withCalls (s.2 ++ [{ target := tag, level := .inf, msg, id }])
    logOut := fun msg id s =>
      (p.logOut msg id s.1).withCalls (s.2 ++ [{ target := tag, level := .log, msg, id }])
    wrnOut := fun msg id s =>
      (p.wrnOut msg id s.1).withCalls (s.2 ++ [{ target := tag, level := .wrn, msg, id }])
    errOut := fun msg id s =>
      (p.errOut msg id s.1).withCalls (s.2 ++ [{ target := tag, level := .err, msg, id }])
    msgTranslate := fun id msg s => (p.msgTranslate id msg s.1).withCalls s.2
    logParam := fun param s => (p.logParam param s.1).withCalls s.2 }

/-! ## `StdLogger` -/

/-- What constructors and destructor of `StdLogger` do to the free store and to the hooks. -/
inductive StoreEvent where
  | opened (addr : Nat) (name : String) (mode : Nat) (good : Bool)
  | deleted (addr : Nat)
  | logStart (l w e : Bool)
  | logFinish (l w e : Bool)
  deriving DecidableEq, Repr

/-- The free store: the address the next `new` returns (objects created earlier, and the
streams handed in by reference, live at other addresses) and the history of operations. -/
structure Store where
  next : Nat
  events : List StoreEvent
  deriving DecidableEq, Repr

/-- Outcome, per level, of the `std::ofstream` constructor when that level opens a file:
`true` when the stream is good afterwards. -/
structure Opens where
  l : Bool
  w : Bool
  e : Bool
  deriving DecidableEq, Repr

/-- `std::ios_base::openmode`, a bit mask. -/
abbrev OpenMode := Nat

/-- `std::ios_base::out`. -/
def ios_base_out : OpenMode := 16

/-- `new std::ofstream(name.c_str(), mode | std::ios_base::out)`: a stream object at a fresh
address. -/
def newOfstream (name : String) (mode : OpenMode) (good : Bool) (st : Store) : Nat × Store :=
  (st.next,
   { next := st.next + 1
     events := st.events ++ [.opened st.next name (mode ||| ios_base_out) good] })

/-- `delete s;` on a stream pointer. -/
def deleteStream (s : Nat) (st : Store) : Store :=
  { st with events := st.events ++ [.deleted s] }

/-- `ILogger::onLogStart(l, w, e)`, reached as `BaseLogger::onLogStart`; its body is empty. -/
def onLogStart (l w e : Bool) (st : Store) : Store :=
  { st with events := st.events ++ [.logStart l w e] }

/-- `ILogger::onLogFinish(l, w, e)`, reached as `BaseLogger::onLogFinish`; its body is empty. -/
def onLogFinish (l w e : Bool) (st : Store) : Store :=
  { st with events := st.events ++ [.logFinish l w e] }

/-- The stream slots and ownership flags of `StdLogger`. -/
structure StdLogger where
  log_out : Option Nat
  wrn_out : Option Nat
  err_out : Option Nat
  l_del : Bool
  w_del : Bool
  e_del : Bool
  deriving DecidableEq, Repr

/-- The block every name-based constructor runs for a level it opens itself, entered with the
slot `NULL` and the flag `false`:
`s = new std::ofstream(...); if (*s) { slot = s; del = true; } else delete s;`.
Returns slot, flag and store. -/
def openByName (name : String) (mode : OpenMode) (good : Bool) (st : Store) :
    Option Nat × Bool × Store :=
  let r := newOfstream name mode good st
  if good then (some r.1, true, r.2) else (none, false, deleteStream r.1 r.2)

/-- The arguments of `onLogStart` / `onLogFinish`:
`(true, wrn_out != log_out, err_out != wrn_out && err_out != log_out)`. -/
def StdLogger.notify (hook : Bool → Bool → Bool → Store → Store) (self : StdLogger)
    (st : Store) : Store :=
  hook true (self.wrn_out != self.log_out)
    (self.err_out != self.wrn_out && self.err_out != self.log_out) st

/-- `StdLogger(std::ostream& l_out, std::ostream& w_out, std::ostream& e_out)`; a stream
reference is the address of the stream. -/
def StdLogger.ctorStreams (l_out w_out e_out : Nat) (st : Store) : StdLogger × Store :=
  let self : StdLogger :=
    { log_out := some l_out, l_del := false
      wrn_out := some w_out, w_del := false
      err_out := some e_out, e_del := false }
  (self, self.notify onLogStart st)

/-- The block of a level whose file name is not compared with another one:
`slot = NULL; del = false; if (file != "") { open by name }`. Returns slot, flag and store. -/
def openLevel (file : String) (mode : OpenMode) (good : Bool) (st : Store) :
    Option Nat × Bool × Store :=
  if file ≠ "" then openByName file mode good st else (none, false, st)

/-- The warning block of the three-name constructor:
`wrn_out = NULL; w_del = false;
if (w_out_file == l_out_file && w_out_file != "") { wrn_out = log_out; w_del = false; }
else if (w_out_file != "") { open by name }`. -/
def openWrnShared (w_out_file l_out_file : String) (mode : OpenMode) (good : Bool)
    (log_out : Option Nat) (st : Store) : Option Nat × Bool × Store :=
  if w_out_file = l_out_file ∧ w_out_file ≠ "" then (log_out, false, st)
  else if w_out_file ≠ "" then openByName w_out_file mode good st
  else (none, false, st)

/-- The error block of the three-name constructor:
`err_out = NULL; e_del = false;
if (e_out_file == l_out_file && e_out_file != "") { err_out = log_out; e_del = false; }
else if (e_out_file == w_out_file && e_out_file != "") { err_out = wrn_out; e_del = false; }
else if (e_out_file != "") { open by name }`. -/
def openErrShared (e_out_file l_out_file w_out_file : String) (mode : OpenMode) (good : Bool)
    (log_out wrn_out : Option Nat) (st : Store) : Option Nat × Bool × Store :=
  if e_out_file = l_out_file ∧ e_out_file ≠ "" then (log_out, false, st)
  else if e_out_file = w_out_file ∧ e_out_file ≠ "" then (wrn_out, false, st)
  else if e_out_file ≠ "" then openByName e_out_file mode good st
  else (none, false, st)

/-- `StdLogger(std::string l_out_file, std::ostream& w_out, std::ostream& e_out, openmode)`. -/
def StdLogger.ctorName1 (l_out_file : String) (w_out e_out : Nat) (mode : OpenMode)
    (good : Opens) (st : Store) : StdLogger × Store :=
  let lg := openLevel l_out_file mode good.l st
  let self : StdLogger :=
    { log_out := lg.1, l_del := lg.2.1
      wrn_out := some w_out, w_del := false
      err_out := some e_out, e_del := false }
  (self, self.notify onLogStart lg.2.2)

/-- `StdLogger(std::string l_out_file, std::string w_out_file, std::ostream& e_out,
openmode)`. -/
def StdLogger.ctorName2 (l_out_file w_out_file : String) (e_out : Nat) (mode : OpenMode)
    (good : Opens) (st : Store) : StdLogger × Store :=
  let lg := openLevel l_out_file mode good.l st
  let wr := openLevel w_out_file mode good.w lg.2.2
  let self : StdLogger :=
    { log_out := lg.1, l_del := lg.2.1
      wrn_out := wr.1, w_del := wr.2.1
      err_out := some e_out, e_del := false }
  (self, self.notify onLogStart wr.2.2)

/-- `StdLogger(std::string l_out_file, std::string w_out_file, std::string e_out_file,
openmode)`. -/
def StdLogger.ctorName3 (l_out_file w_out_file e_out_file : String) (mode : OpenMode)
    (good : Opens) (st : Store) : StdLogger × Store :=
  let lg := openLevel l_out_file mode good.l st
  let wr := openWrnShared w_out_file l_out_file mode good.w lg.1 lg.2.2
  let er := openErrShared e_out_file l_out_file w_out_file mode good.e lg.1 wr.1 wr.2.2
  let self : StdLogger :=
    { log_out := lg.1, l_del := lg.2.1
      wrn_out := wr.1, w_del := wr.2.1
      err_out := er.1, e_del := er.2.1 }
  (self, self.notify onLogStart er.2.2)

/-- `StdLogger(const StdLogger& src)`. -/
def StdLogger.copy (src : StdLogger) (st : Store) : StdLogger × Store :=
  let self : StdLogger :=
    { log_out := if src.l_del then none else src.log_out
      wrn_out := if src.w_del then none else src.wrn_out
      err_out := if src.e_del then none else src.err_out
      l_del := false
      w_del := false
      e_del := false }
  (self, self.notify onLogStart st)

/-- `if (del && slot) delete slot;`. -/
def deleteIfOwned (del : Bool) (slot : Option Nat) (st : Store) : Store :=
  match del, slot with
  | true, some s => deleteStream s st
  | _, _ => st

/-- `StdLogger::~StdLogger()`. -/
def StdLogger.destroy (self : StdLogger) (st : Store) : Store :=
  let st0 := self.notify onLogFinish st
  let st1 := deleteIfOwned self.l_del self.log_out st0
  let st2 := deleteIfOwned self.w_del self.wrn_out st1
  deleteIfOwned self.e_del self.err_out st2

/-- The addresses released by `delete` in a history, in order. -/
def deletedAddrs (evs : List StoreEvent) : List Nat :=
  evs.filterMap fun ev => match ev with
    | .deleted a => some a
    | _ => none

/-- The addresses of the streams a history opened successfully, in order. -/
def goodAddrs (evs : List StoreEvent) : List Nat :=
  evs.filterMap fun ev => match ev with
    | .opened a _ _ true => some a
    | _ => none

/-- The file names a history tried to open, in order. -/
def openedNames (evs : List StoreEvent) : List String :=
  evs.filterMap fun ev => match ev with
    | .opened _ name _ _ => some name
    | _ => none

/-- A store with the given allocation frontier and an empty history. -/
def Store.start (next : Nat) : Store :=
  { next := next, events := [] }

/-! ## The section brackets of `ILS_Defines.h` -/

/-- The members of `TLoggerStream` the brackets use. The class is declared in
`ILS_LoggerStream.h`; the brackets are stated here for every implementation of it.
`A` stands for the parenthesised argument list `LOG_ARG`; `destroy` is the destructor, run when
the block that declares the object is left, normally or by a failure. -/
structure TLoggerStream (W A : Type) where
  SectBegin : A → W → Res W Unit
  Flush : W → Res W Unit
  SectId : Msg
  SectCheck : Msg → Int → W → Res W Unit
  SectEnd : A → W → Res W Unit
  destroy : W → W

/-- The constructor call `TLoggerStream oSection(this, &ILogger::infOut, #SECTID [, INDEX])`. -/
abbrev TLoggerStreamCtor (W A : Type) :=
  ILogger W → Msg → Option Int → W → Res W (TLoggerStream W A)

/-- A block `{ T o(...); rest }`: the destructor of `o` runs however `rest` ends. -/
def withObject {W α : Type} (destroy : W → W) (rest : W → Res W α) (w : W) : Res W α :=
  match rest w with
  | .ret a w1 => .ret a (destroy w1)
  | .raise f w1 => .raise f (destroy w1)

/-- The message template of the two handlers. -/
def sectExceptionFormat : Msg := "Секция %s не завершена из-за: %s".toList

/-- The description a handler passes to `wrn`: `e.what()` in `catch (const std::exception& e)`,
the literal `"unknown"` in `catch (...)`. -/
def Failure.describe : Failure → Msg
  | .stdException what => what
  | .other _ => "unknown".toList

/-- The statement
`try body catch (const std::exception& e) { wrn("SectException", ..., SectId(), e.what()); throw; }
catch (...) { wrn("SectException", ..., SectId(), "unknown"); throw; }`
that `ILS_SECTB` / `ILS_SECTBI` open and `ILS_SECTE` / `ILS_SECTEI` close. -/
def sectTry {W A : Type} (printf : Printf) (self : ILogger W) (oSection : TLoggerStream W A)
    (body : W → Res W Unit) (w : W) : Res W Unit :=
  match body w with
  | .ret _ w1 => .ret () w1
  | .raise (.stdException what) w1 =>
    (ILogger.wrn printf self "SectException".toList sectExceptionFormat
        [.text oSection.SectId, .text what] w1).andThen
      fun _ w2 => .raise (.stdException what) w2
  | .raise (.other tag) w1 =>
    (ILogger.wrn printf self "SectException".toList sectExceptionFormat
        [.text oSection.SectId, .text "unknown".toList] w1).andThen
      fun _ w2 => .raise (.other tag) w2

/-- `ILS_SECTB(SECTID, LOG_ARG) body ILS_SECTE(SECTID, LOG_ARG)`, expanded in a member function
of the logger `self`. -/
def ILS_SECTB_SECTE {W A : Type} (printf : Printf) (self : ILogger W)
    (construct : TLoggerStreamCtor W A) (SECTID : Msg) (LOG_ARG_B LOG_ARG_E : A)
    (body : W → Res W Unit) (w : W) : Res W Unit :=
  (construct self SECTID none w).andThen fun oSection w0 =>
    withObject oSection.destroy (fun w0 =>
      (oSection.SectBegin LOG_ARG_B w0).andThen fun _ w1 =>
      (oSection.Flush w1).andThen fun _ w2 =>
      (sectTry printf self oSection body w2).andThen fun _ w3 =>
      oSection.SectEnd LOG_ARG_E w3) w0

/-- `ILS_SECTBI(SECTID, INDEX, LOG_ARG) body ILS_SECTEI(SECTID, INDEX, LOG_ARG)`, expanded in a
member function of the logger `self`; `INDEX_B` is the index written at the opening macro,
`INDEX_E` the one written at the closing macro. -/
def ILS_SECTBI_SECTEI {W A : Type} (printf : Printf) (self : ILogger W)
    (construct : TLoggerStreamCtor W A) (SECTID : Msg) (INDEX_B INDEX_E : Int)
    (LOG_ARG_B LOG_ARG_E : A) (body : W → Res W Unit) (w : W) : Res W Unit :=
  (construct self SECTID (some INDEX_B) w).andThen fun oSection w0 =>
    withObject oSection.destroy (fun w0 =>
      (oSection.SectBegin LOG_ARG_B w0).andThen fun _ w1 =>
      (oSection.Flush w1).andThen fun _ w2 =>
      (sectTry printf self oSection body w2).andThen fun _ w3 =>
      (oSection.SectCheck SECTID INDEX_E w3).andThen fun _ w4 =>
      oSection.SectEnd LOG_ARG_E w4) w0

/-! ## The replacement the specification describes -/

/-- The text obtained from a template by replacing every occurrence of the two characters
`%t` with `%f` and leaving every other character unchanged (written from the description,
to be compared with the loop of the code). -/
def replacePercentT : List Char → List Char
  | [] => []
  | [c] => [c]
  | c :: d :: rest =>
    if c = '%' ∧ d = 't' then '%' :: 'f' :: replacePercentT rest
    else c :: replacePercentT (d :: rest)

/-! ## Sample loggers, used to instantiate the theorems -/

/-- A concrete logger over a counter: each sink operation adds one to the world, the
translation hook returns the template as it is. -/
def countingLogger : ILogger Nat :=
  { infOut := fun _ _ w => .ret () (w + 1)
    logOut := fun _ _ w => .ret () (w + 1)
    wrnOut := fun _ _ w => .ret () (w + 1)
    errOut := fun _ _ w => .ret () (w + 1)
    msgTranslate := fun _ msg w => .ret msg w
    logParam := fun _ w => .ret 0.0 w }

/-- A concrete logger whose translation hook throws a `std::exception`. -/
def throwingHookLogger : ILogger Nat :=
  { countingLogger with
    msgTranslate := fun _ _ w => .raise (.stdException "no dictionary".toList) w }

/-- A concrete logger whose sink operations throw after touching the world. -/
def throwingSinkLogger : ILogger Nat :=
  { countingLogger with
    infOut := fun _ _ w => .raise (.other 1) (w + 1)
    logOut := fun _ _ w => .raise (.other 1) (w + 1)
    wrnOut := fun _ _ w => .raise (.other 1) (w + 1)
    errOut := fun _ _ w => .raise (.other 1) (w + 1) }

/-- A formatter that ignores the arguments and returns the template. -/
def plainPrintf : Printf := fun fmt _ => fmt

/-- Number of occurrences of `%t` in a text: what the loop of `msgTranslate` uses up. -/
def countPercentT : List Char → Nat
  | [] => 0
  | [_] => 0
  | c :: d :: rest =>
    if c = '%' ∧ d = 't' then countPercentT rest + 1
    else countPercentT (d :: rest)

/-- A logger over a written record: every sink operation writes one line naming itself and
the message identifier; the translation hook returns the template as it is. -/
def noteLogger : ILogger (List String) :=
  { infOut := fun _ id w => .ret () (w ++ ["infOut " ++ String.mk id])
    logOut := fun _ id w => .ret () (w ++ ["logOut " ++ String.mk id])
    wrnOut := fun _ id w => .ret () (w ++ ["wrnOut " ++ String.mk id])
    errOut := fun _ id w => .ret () (w ++ ["errOut " ++ String.mk id])
    msgTranslate := fun _ msg w => .ret msg w
    logParam := fun _ w => .ret 0.0 w }

/-- A section object over a written record: every member writes one line naming itself. -/
def noteSection (id : Msg) : TLoggerStream (List String) Unit :=
  { SectBegin := fun _ w => .ret () (w ++ ["SectBegin"])
    Flush := fun w => .ret () (w ++ ["Flush"])
    SectId := id
    SectCheck := fun _ index w =>
      .ret () (w ++ [if index = 2 then "SectCheck 2" else "SectCheck"])
    SectEnd := fun _ w => .ret () (w ++ ["SectEnd"])
    destroy := fun w => w ++ ["~TLoggerStream"] }

/-- The constructor of `noteSection`. -/
def noteSectionCtor : TLoggerStreamCtor (List String) Unit :=
  fun _ id _ w => .ret (noteSection id) (w ++ ["TLoggerStream"])

/-- A section body that writes one line and returns. -/
def returningBody : List String → Res (List String) Unit :=
  fun w => .ret () (w ++ ["body"])

/-- A section body that throws a `std::exception` after writing one line. -/
def failingBody : List String → Res (List String) Unit :=
  fun w => .raise (.stdException "disk full".toList) (w ++ ["body"])

/-! ## Delegation (`Logger`) -/

/-- C1: for every state of the two slots of a delegating `Logger`, each forwarded operation
(`infOut`, `logOut`, `wrnOut`, `errOut`, `msgTranslate`, `logParam`) is that operation of the
personal logger when the personal slot is set, otherwise that operation of the parent logger
when the parent slot is set; with both slots empty the four sink operations return at once
leaving the world as it is, `msgTranslate` returns its input template and `logParam`
returns 0. -/
theorem Logger.forwards_personal_then_parent {W : Type} (p q : ILogger W)
    (parent : Option (ILogger W)) :
    ((Logger.mk (some p) parent).infOut = p.infOut ∧
      (Logger.mk (some p) parent).logOut = p.logOut ∧
      (Logger.mk (some p) parent).wrnOut = p.wrnOut ∧
      (Logger.mk (some p) parent).errOut = p.errOut ∧
      (Logger.mk (some p) parent).msgTranslate = p.msgTranslate ∧
      (Logger.mk (some p) parent).logParam = p.logParam) ∧
    ((Logger.mk none (some q)).infOut = q.infOut ∧
      (Logger.mk none (some q)).logOut = q.logOut ∧
      (Logger.mk none (some q)).wrnOut = q.wrnOut ∧
      (Logger.mk none (some q)).errOut = q.errOut ∧
      (Logger.mk none (some q)).msgTranslate = q.msgTranslate ∧
      (Logger.mk none (some q)).logParam = q.logParam) ∧
    ((∀ (msg : Msg) (id : LogId) (w : W),
        (Logger.mk none none).infOut msg id w = .ret () w ∧
        (Logger.mk none none).logOut msg id w = .ret () w ∧
        (Logger.mk none none).wrnOut msg id w = .ret () w ∧
        (Logger.mk none none).errOut msg id w = .ret () w ∧
        (Logger.mk none none).msgTranslate id msg w = .ret msg w) ∧
      (∀ (param : Int) (w : W), (Logger.mk none none).logParam param w = .ret 0.0 w)) := by
  refine ⟨⟨rfl, rfl, rfl, rfl, rfl, rfl⟩, ⟨rfl, rfl, rfl, rfl, rfl, rfl⟩, ?_, ?_⟩
  · intro msg id w
    exact ⟨rfl, rfl, rfl, rfl, rfl⟩
  · intro param w
    rfl

/-! ## The leveled calls never raise -/

/-- The statement `try { ... } catch (...) {}` returns normally whatever its body does. -/
theorem tryCatchAll_returns {W : Type} (body : W → Res W Unit) (w : W) :
    tryCatchAll body w = .ret () (body w).world := by
  unfold tryCatchAll
  cases body w <;> rfl

/-- The leveled call `wrn` returns normally, for every logger. -/
theorem ILogger.leveled_wrn_returns {W : Type} (printf : Printf) (self : ILogger W)
    (id : LogId) (msg : Msg) (marker : List Arg) (w : W) :
    ∃ w1, ILogger.wrn printf self id msg marker w = .ret () w1 :=
  ⟨_, tryCatchAll_returns _ w⟩

/-- C2: for each of the four leveled calls, for every translation hook and every sink
operation (raising ones included), the call returns normally; and when the translation hook
raises, the call returns in the world the hook left, and under observation no invocation of a
sink operation is noted: the message is dropped. -/
theorem ILogger.leveled_calls_return_normally {W : Type} (printf : Printf) (self : ILogger W)
    (id : LogId) (msg : Msg) (marker : List Arg) (w : W) :
    ((∃ w1, ILogger.inf printf self id msg marker w = .ret () w1) ∧
      (∃ w1, ILogger.log printf self id msg marker w = .ret () w1) ∧
      (∃ w1, ILogger.wrn printf self id msg marker w = .ret () w1) ∧
      (∃ w1, ILogger.err printf self id msg marker w = .ret () w1)) ∧
    (∀ (f : Failure) (w1 : W), self.msgTranslate id msg w = .raise f w1 →
      (ILogger.inf printf self id msg marker w = .ret () w1 ∧
        ILogger.log printf self id msg marker w = .ret () w1 ∧
        ILogger.wrn printf self id msg marker w = .ret () w1 ∧
        ILogger.err printf self id msg marker w = .ret () w1) ∧
      (∀ (tag : Nat) (calls : List Call),
        ILogger.inf printf (traced tag self) id msg marker (w, calls) = .ret () (w1, calls) ∧
        ILogger.log printf (traced tag self) id msg marker (w, calls) = .ret () (w1, calls) ∧
        ILogger.wrn printf (traced tag self) id msg marker (w, calls) = .ret () (w1, calls) ∧
        ILogger.err printf (traced tag self) id msg marker (w, calls) = .ret () (w1, calls))) := by
  refine ⟨⟨⟨_, tryCatchAll_returns _ w⟩, ⟨_, tryCatchAll_returns _ w⟩,
    ⟨_, tryCatchAll_returns _ w⟩, ⟨_, tryCatchAll_returns _ w⟩⟩, ?_⟩
  intro f w1 h
  refine ⟨?_, ?_⟩
  · simp [ILogger.inf, ILogger.log, ILogger.wrn, ILogger.err, tryCatchAll, Res.andThen, h]
  · intro tag calls
    simp [ILogger.inf, ILogger.log, ILogger.wrn, ILogger.err, tryCatchAll, Res.andThen, h,
      traced, Res.withCalls]

/-- C2 at a concrete logger: the translation hook of `throwingHookLogger` raises, and the four
leveled calls return with the counter of sink invocations still at 0. -/
theorem ILogger.leveled_calls_return_normally_witness :
    throwingHookLogger.msgTranslate [] "n=%d".toList 0
        = .raise (.stdException "no dictionary".toList) 0 ∧
      (ILogger.inf plainPrintf throwingHookLogger [] "n=%d".toList [.int 3] 0 = .ret () 0 ∧
        ILogger.log plainPrintf throwingHookLogger [] "n=%d".toList [.int 3] 0 = .ret () 0 ∧
        ILogger.wrn plainPrintf throwingHookLogger [] "n=%d".toList [.int 3] 0 = .ret () 0 ∧
        ILogger.err plainPrintf throwingHookLogger [] "n=%d".toList [.int 3] 0 = .ret () 0) :=
  ⟨rfl, ((ILogger.leveled_calls_return_normally plainPrintf throwingHookLogger []
    "n=%d".toList [.int 3] 0).2 _ _ rfl).1⟩

/-! ## Delegation priority, observed at the sinks -/

/-- C3 (as amended): take a fresh delegating `Logger` and concrete loggers `p`, `q` whose
translation hooks return normally on the message. After `setParentLogger(p)` alone, each of
the four leveled calls invokes the matching sink operation of `p` exactly once (one invocation
is added to the observed calls, and it is that one); after then `setPersonalLogger(q)`, each
leveled call invokes the matching sink operation of `q` exactly once and none of `p`; after
then clearing both slots, a leveled call invokes no sink operation and leaves the world as
it is. -/
theorem Logger.leveled_calls_follow_slots {W : Type} (printf : Printf) (p q : ILogger W)
    (tp tq : Nat) (id : LogId) (msg : Msg) (marker : List Arg) (w : W) (calls : List Call)
    (fmtp fmtq : Msg) (wp wq : W)
    (hp : p.msgTranslate id msg w = .ret fmtp wp)
    (hq : q.msgTranslate id msg w = .ret fmtq wq) :
    ((ILogger.inf printf (Logger.fresh.setParentLogger (some (traced tp p))).toILogger
          id msg marker (w, calls)).world.2
        = calls ++ [⟨tp, .inf, vsnprintf printf max_msg_size fmtp marker, id⟩] ∧
      (ILogger.log printf (Logger.fresh.setParentLogger (some (traced tp p))).toILogger
          id msg marker (w, calls)).world.2
        = calls ++ [⟨tp, .log, vsnprintf printf max_msg_size fmtp marker, id⟩] ∧
      (ILogger.wrn printf (Logger.fresh.setParentLogger (some (traced tp p))).toILogger
          id msg marker (w, calls)).world.2
        = calls ++ [⟨tp, .wrn, vsnprintf printf max_msg_size fmtp marker, id⟩] ∧
      (ILogger.err printf (Logger.fresh.setParentLogger (some (traced tp p))).toILogger
          id msg marker (w, calls)).world.2
        = calls ++ [⟨tp, .err, vsnprintf printf max_msg_size fmtp marker, id⟩]) ∧
    ((ILogger.inf printf ((Logger.fresh.setParentLogger (some (traced tp p))).setPersonalLogger
          (some (traced tq q))).toILogger id msg marker (w, calls)).world.2
        = calls ++ [⟨tq, .inf, vsnprintf printf max_msg_size fmtq marker, id⟩] ∧
      (ILogger.log printf ((Logger.fresh.setParentLogger (some (traced tp p))).setPersonalLogger
          (some (traced tq q))).toILogger id msg marker (w, calls)).world.2
        = calls ++ [⟨tq, .log, vsnprintf printf max_msg_size fmtq marker, id⟩] ∧
      (ILogger.wrn printf ((Logger.fresh.setParentLogger (some (traced tp p))).setPersonalLogger
          (some (traced tq q))).toILogger id msg marker (w, calls)).world.2
        = calls ++ [⟨tq, .wrn, vsnprintf printf max_msg_size fmtq marker, id⟩] ∧
      (ILogger.err printf ((Logger.fresh.setParentLogger (some (traced tp p))).setPersonalLogger
          (some (traced tq q))).toILogger id msg marker (w, calls)).world.2
        = calls ++ [⟨tq, .err, vsnprintf printf max_msg_size fmtq marker, id⟩]) ∧
    (ILogger.inf printf ((((Logger.fresh.setParentLogger (some (traced tp p))).setPersonalLogger
          (some (traced tq q))).setPersonalLogger none).setParentLogger none).toILogger
          id msg marker (w, calls) = .ret () (w, calls) ∧
      ILogger.log printf ((((Logger.fresh.setParentLogger (some (traced tp p))).setPersonalLogger
          (some (traced tq q))).setPersonalLogger none).setParentLogger none).toILogger
          id msg marker (w, calls) = .ret () (w, calls) ∧
      ILogger.wrn printf ((((Logger.fresh.setParentLogger (some (traced tp p))).setPersonalLogger
          (some (traced tq q))).setPersonalLogger none).setParentLogger none).toILogger
          id msg marker (w, calls) = .ret () (w, calls) ∧
      ILogger.err printf ((((Logger.fresh.setParentLogger (some (traced tp p))).setPersonalLogger
          (some (traced tq q))).setPersonalLogger none).setParentLogger none).toILogger
          id msg marker (w, calls) = .ret () (w, calls)) := by
  refine ⟨?_, ?_, ?_⟩
  · simp only [ILogger.inf, ILogger.log, ILogger.wrn, ILogger.err, Logger.toILogger,
      Logger.setParentLogger, Logger.fresh, Logger.msgTranslate, Logger.infOut, Logger.logOut,
      Logger.wrnOut, Logger.errOut, Logger.logger, traced, tryCatchAll, Res.andThen, hp,
      Res.withCalls, Option.isSome, if_true]
    refine ⟨?_, ?_, ?_, ?_⟩
    · cases p.infOut (vsnprintf printf max_msg_size fmtp marker) id wp <;> rfl
    · cases p.logOut (vsnprintf printf max_msg_size fmtp marker) id wp <;> rfl
    · cases p.wrnOut (vsnprintf printf max_msg_size fmtp marker) id wp <;> rfl
    · cases p.errOut (vsnprintf printf max_msg_size fmtp marker) id wp <;> rfl
  · simp only [ILogger.inf, ILogger.log, ILogger.wrn, ILogger.err, Logger.toILogger,
      Logger.setParentLogger, Logger.setPersonalLogger, Logger.fresh, Logger.msgTranslate,
      Logger.infOut, Logger.logOut, Logger.wrnOut, Logger.errOut, Logger.logger, traced,
      tryCatchAll, Res.andThen, hq, Res.withCalls, Option.isSome, if_true]
    refine ⟨?_, ?_, ?_, ?_⟩
    · cases q.infOut (vsnprintf printf max_msg_size fmtq marker) id wq <;> rfl
    · cases q.logOut (vsnprintf printf max_msg_size fmtq marker) id wq <;> rfl
    · cases q.wrnOut (vsnprintf printf max_msg_size fmtq marker) id wq <;> rfl
    · cases q.errOut (vsnprintf printf max_msg_size fmtq marker) id wq <;> rfl
  · exact ⟨rfl, rfl, rfl, rfl⟩

/-- C3 (as amended) at concrete loggers: `countingLogger` in both roles, observed under the
names 1 and 2. -/
theorem Logger.leveled_calls_follow_slots_witness :
    (countingLogger.msgTranslate [] "n=%d".toList 0 = .ret "n=%d".toList 0) ∧
    (ILogger.inf plainPrintf ((Logger.fresh.setParentLogger
          (some (traced 1 countingLogger))).setPersonalLogger
          (some (traced 2 countingLogger))).toILogger [] "n=%d".toList [.int 3] (0, [])).world.2
        = [] ++ [⟨2, .inf, vsnprintf plainPrintf max_msg_size "n=%d".toList [.int 3], []⟩] :=
  ⟨rfl, (Logger.leveled_calls_follow_slots plainPrintf countingLogger countingLogger 1 2 []
    "n=%d".toList [.int 3] 0 [] _ _ _ _ rfl rfl).2.1.1⟩

/-- C3 fails as stated: with the concrete logger `throwingHookLogger` (its translation hook
throws) set by `setParentLogger` on a fresh `Logger`, the leveled call `inf` returns without
any sink operation having been invoked: the observed calls stay empty, not one call on the
logger named 7, and the counter of the logger stays at 0. -/
theorem Logger.throwing_hook_parent_gets_no_call :
    ILogger.inf plainPrintf
        (Logger.fresh.setParentLogger (some (traced 7 throwingHookLogger))).toILogger
        [] "n=%d".toList [.int 3] (0, []) = .ret () (0, []) ∧
      ((ILogger.inf plainPrintf
        (Logger.fresh.setParentLogger (some (traced 7 throwingHookLogger))).toILogger
        [] "n=%d".toList [.int 3] (0, [])).world.2.filter (fun c => c.target = 7)).length ≠ 1 :=
  ⟨rfl, by decide⟩

/-! ## Truncation at the buffer size -/

/-- C4: for each of the four leveled calls, every template and argument list whose complete
formatted text (the translated template formatted with the arguments) is longer than
`max_msg_size` = 1024: the matching sink operation is invoked exactly once, with a text that
is a prefix of the complete text and not longer than 1024 (it is the first 1023 characters:
the message is truncated, not rejected). -/
theorem ILogger.leveled_calls_truncate_long_text {W : Type} (printf : Printf)
    (self : ILogger W) (tag : Nat) (id : LogId) (msg : Msg) (marker : List Arg) (w : W)
    (calls : List Call) (fmt : Msg) (w1 : W)
    (hfmt : self.msgTranslate id msg w = .ret fmt w1)
    (hlong : max_msg_size < (printf fmt marker).length) :
    ∃ text : Msg,
      text <+: printf fmt marker ∧ text.length ≤ max_msg_size ∧ text.length = 1023 ∧
      (ILogger.inf printf (traced tag self) id msg marker (w, calls)).world.2
        = calls ++ [⟨tag, .inf, text, id⟩] ∧
      (ILogger.log printf (traced tag self) id msg marker (w, calls)).world.2
        = calls ++ [⟨tag, .log, text, id⟩] ∧
      (ILogger.wrn printf (traced tag self) id msg marker (w, calls)).world.2
        = calls ++ [⟨tag, .wrn, text, id⟩] ∧
      (ILogger.err printf (traced tag self) id msg marker (w, calls)).world.2
        = calls ++ [⟨tag, .err, text, id⟩] := by
  have hlen : ((printf fmt marker).take (max_msg_size - 1)).length = 1023 := by
    have hcap : max_msg_size = 1024 := rfl
    rw [List.length_take]
    omega
  refine ⟨vsnprintf printf max_msg_size fmt marker, List.take_prefix _ _, ?_, hlen, ?_⟩
  · have hcap : max_msg_size = 1024 := rfl
    rw [vsnprintf, hlen]
    omega
  · simp only [ILogger.inf, ILogger.log, ILogger.wrn, ILogger.err, traced, tryCatchAll,
      Res.andThen, hfmt, Res.withCalls]
    refine ⟨?_, ?_, ?_, ?_⟩
    · cases self.infOut (vsnprintf printf max_msg_size fmt marker) id w1 <;> rfl
    · cases self.logOut (vsnprintf printf max_msg_size fmt marker) id w1 <;> rfl
    · cases self.wrnOut (vsnprintf printf max_msg_size fmt marker) id w1 <;> rfl
    · cases self.errOut (vsnprintf printf max_msg_size fmt marker) id w1 <;> rfl

/-- C4 at a concrete input: a template of 1025 letters, formatted as it is, reaches the sink
of `countingLogger` as a single call with a text of 1023 letters. -/
theorem ILogger.leveled_calls_truncate_long_text_witness :
    max_msg_size < (plainPrintf (List.replicate 1025 'a') []).length ∧
    ∃ text : Msg,
      text <+: plainPrintf (List.replicate 1025 'a') [] ∧ text.length ≤ max_msg_size ∧
      text.length = 1023 ∧
      (ILogger.inf plainPrintf (traced 0 countingLogger) [] (List.replicate 1025 'a') []
          (0, [])).world.2 = [] ++ [⟨0, .inf, text, []⟩] ∧
      (ILogger.log plainPrintf (traced 0 countingLogger) [] (List.replicate 1025 'a') []
          (0, [])).world.2 = [] ++ [⟨0, .log, text, []⟩] ∧
      (ILogger.wrn plainPrintf (traced 0 countingLogger) [] (List.replicate 1025 'a') []
          (0, [])).world.2 = [] ++ [⟨0, .wrn, text, []⟩] ∧
      (ILogger.err plainPrintf (traced 0 countingLogger) [] (List.replicate 1025 'a') []
          (0, [])).world.2 = [] ++ [⟨0, .err, text, []⟩] :=
  ⟨by rw [plainPrintf, List.length_replicate]; decide,
   ILogger.leveled_calls_truncate_long_text plainPrintf countingLogger 0 []
     (List.replicate 1025 'a') [] 0 [] (List.replicate 1025 'a') 0 rfl
     (by rw [plainPrintf, List.length_replicate]; decide)⟩

/-! ## The default translation hook -/

theorem find_percentT_nil : find [] ['%', 't'] = none := rfl

theorem find_percentT_single (c : Char) : find [c] ['%', 't'] = none := by
  simp [find, List.isPrefixOf]

theorem find_percentT_cons_cons (c d : Char) (rest : List Char) :
    find (c :: d :: rest) ['%', 't']
      = if c = '%' ∧ d = 't' then some 0
        else (find (d :: rest) ['%', 't']).map (· + 1) := by
  rw [find]
  by_cases h : c = '%' ∧ d = 't'
  · obtain ⟨rfl, rfl⟩ := h
    simp [List.isPrefixOf]
  · have : ¬ (['%', 't'].isPrefixOf (c :: d :: rest) = true) := by
      simp only [List.isPrefixOf, Bool.and_true, Bool.and_eq_true, beq_iff_eq]
      intro hh
      exact h ⟨hh.1.symm, hh.2.symm⟩
    rw [if_neg this, if_neg h]

/-- A text without `%t` is its own replacement. -/
theorem replacePercentT_of_find_none (str : List Char) (h : find str ['%', 't'] = none) :
    replacePercentT str = str := by
  induction str using replacePercentT.induct with
  | case1 => rfl
  | case2 c => rfl
  | case3 c d rest hcd ih =>
    rw [find_percentT_cons_cons, if_pos hcd] at h
    cases h
  | case4 c d rest hcd ih =>
    rw [find_percentT_cons_cons, if_neg hcd] at h
    rw [replacePercentT, if_neg hcd, ih (by simpa using h)]

/-- A text without `%t` has no occurrence to count. -/
theorem countPercentT_of_find_none (str : List Char) (h : find str ['%', 't'] = none) :
    countPercentT str = 0 := by
  induction str using replacePercentT.induct with
  | case1 => rfl
  | case2 c => rfl
  | case3 c d rest hcd ih =>
    rw [find_percentT_cons_cons, if_pos hcd] at h
    cases h
  | case4 c d rest hcd ih =>
    rw [find_percentT_cons_cons, if_neg hcd] at h
    rw [countPercentT, if_neg hcd, ih (by simpa using h)]

theorem replacePercentT_cons_of_ne (c : Char) (rest : List Char) (hc : c ≠ '%') :
    replacePercentT (c :: rest) = c :: replacePercentT rest := by
  cases rest with
  | nil => rfl
  | cons d rest => rw [replacePercentT, if_neg (fun h => hc h.1)]

theorem countPercentT_cons_of_ne (c : Char) (rest : List Char) (hc : c ≠ '%') :
    countPercentT (c :: rest) = countPercentT rest := by
  cases rest with
  | nil => rfl
  | cons d rest => rw [countPercentT, if_neg (fun h => hc h.1)]

/-- One turn of the loop, at the first occurrence, does not change the replacement. -/
theorem replacePercentT_set_first (str : List Char) (pos : Nat)
    (h : find str ['%', 't'] = some pos) :
    replacePercentT (str.set (pos + 1) 'f') = replacePercentT str := by
  induction str using replacePercentT.induct generalizing pos with
  | case1 => cases h
  | case2 c => rw [find_percentT_single] at h; cases h
  | case3 c d rest hcd ih =>
    rw [find_percentT_cons_cons, if_pos hcd] at h
    obtain ⟨rfl, rfl⟩ := hcd
    cases h
    have h1 : replacePercentT ('%' :: 'f' :: rest) = '%' :: replacePercentT ('f' :: rest) := by
      rw [replacePercentT, if_neg (by decide)]
    have h2 : replacePercentT ('%' :: 't' :: rest) = '%' :: 'f' :: replacePercentT rest := by
      rw [replacePercentT, if_pos (by decide)]
    show replacePercentT ('%' :: 'f' :: rest) = _
    rw [h1, h2, replacePercentT_cons_of_ne _ _ (by decide)]
  | case4 c d rest hcd ih =>
    rw [find_percentT_cons_cons, if_neg hcd] at h
    cases hq : find (d :: rest) ['%', 't'] with
    | none => rw [hq] at h; cases h
    | some q =>
      rw [hq] at h
      cases h
      have ihq := ih q hq
      show replacePercentT (c :: d :: rest.set q 'f') = _
      rw [replacePercentT, if_neg hcd, replacePercentT, if_neg hcd]
      exact congrArg (c :: ·) ihq

/-- One turn of the loop removes exactly one occurrence. -/
theorem countPercentT_set_first (str : List Char) (pos : Nat)
    (h : find str ['%', 't'] = some pos) :
    countPercentT (str.set (pos + 1) 'f') + 1 = countPercentT str := by
  induction str using replacePercentT.induct generalizing pos with
  | case1 => cases h
  | case2 c => rw [find_percentT_single] at h; cases h
  | case3 c d rest hcd ih =>
    rw [find_percentT_cons_cons, if_pos hcd] at h
    obtain ⟨rfl, rfl⟩ := hcd
    cases h
    have h1 : countPercentT ('%' :: 'f' :: rest) = countPercentT ('f' :: rest) := by
      rw [countPercentT, if_neg (by decide)]
    have h2 : countPercentT ('%' :: 't' :: rest) = countPercentT rest + 1 := by
      rw [countPercentT, if_pos (by decide)]
    show countPercentT ('%' :: 'f' :: rest) + 1 = _
    rw [h1, h2, countPercentT_cons_of_ne _ _ (by decide)]
  | case4 c d rest hcd ih =>
    rw [find_percentT_cons_cons, if_neg hcd] at h
    cases hq : find (d :: rest) ['%', 't'] with
    | none => rw [hq] at h; cases h
    | some q =>
      rw [hq] at h
      cases h
      have ihq := ih q hq
      show countPercentT (c :: d :: rest.set q 'f') + 1 = _
      rw [countPercentT, if_neg hcd, countPercentT, if_neg hcd]
      exact ihq

theorem countPercentT_le_length (str : List Char) : countPercentT str ≤ str.length := by
  induction str using replacePercentT.induct with
  | case1 => simp [countPercentT]
  | case2 c => simp [countPercentT]
  | case3 c d rest hcd ih =>
    rw [countPercentT, if_pos hcd]
    simp only [List.length_cons]
    omega
  | case4 c d rest hcd ih =>
    rw [countPercentT, if_neg hcd]
    simp only [List.length_cons] at ih ⊢
    omega

/-- With more fuel than occurrences of `%t`, the loop exits with the replacement. -/
theorem msgTranslateLoop_eq_replace (fuel : Nat) (str : List Char)
    (h : countPercentT str < fuel) :
    msgTranslateLoop fuel str = some (replacePercentT str) := by
  induction fuel generalizing str with
  | zero => omega
  | succ fuel ih =>
    rw [msgTranslateLoop]
    cases hf : find str ['%', 't'] with
    | none => simp only [replacePercentT_of_find_none str hf]
    | some pos =>
      simp only
      have hc := countPercentT_set_first str pos hf
      rw [ih _ (by omega), replacePercentT_set_first str pos hf]

/-- What the loop returns has no `%t` left and the length it started with. -/
theorem msgTranslateLoop_exit (fuel : Nat) (str out : List Char)
    (h : msgTranslateLoop fuel str = some out) :
    find out ['%', 't'] = none ∧ out.length = str.length := by
  induction fuel generalizing str with
  | zero => cases h
  | succ fuel ih =>
    rw [msgTranslateLoop] at h
    cases hf : find str ['%', 't'] with
    | none =>
      rw [hf] at h
      cases h
      exact ⟨hf, rfl⟩
    | some pos =>
      rw [hf] at h
      have := ih _ h
      simpa using this

/-- C5: for every template, the default `ILogger::msgTranslate` terminates (any fuel above the
length of the template lets the loop exit, with one and the same result) and returns the text
of the same length obtained by replacing every occurrence of `%t` with `%f` and leaving every
other character unchanged; the result contains no `%t`, and a template that contains no `%t`
is returned unchanged. -/
theorem ILogger.msgTranslateDefault_replaces_percentT (id : LogId) (msg : Msg) (fuel : Nat)
    (hfuel : msg.length < fuel) :
    ILogger.msgTranslateDefault fuel id msg = some (replacePercentT msg) ∧
      (replacePercentT msg).length = msg.length ∧
      find (replacePercentT msg) ['%', 't'] = none ∧
      (find msg ['%', 't'] = none → replacePercentT msg = msg) := by
  have hrun : msgTranslateLoop fuel msg = some (replacePercentT msg) :=
    msgTranslateLoop_eq_replace fuel msg
      (Nat.lt_of_le_of_lt (countPercentT_le_length msg) hfuel)
  have hexit := msgTranslateLoop_exit fuel msg _ hrun
  exact ⟨hrun, hexit.2, hexit.1, replacePercentT_of_find_none msg⟩

/-- C5 at a concrete template: `"%t s, %d%%, %t"` becomes `"%f s, %d%%, %f"`. -/
theorem ILogger.msgTranslateDefault_replaces_percentT_witness :
    "%t s, %d%%, %t".toList.length < 20 ∧
      ILogger.msgTranslateDefault 20 [] "%t s, %d%%, %t".toList
        = some "%f s, %d%%, %f".toList :=
  ⟨by decide,
   (ILogger.msgTranslateDefault_replaces_percentT [] "%t s, %d%%, %t".toList 20
      (by decide)).1.trans (by decide)⟩

/-! ## `StdLogger`: what the constructors leave in the slots and in the store -/

theorem openByName_slot (name : String) (mode : OpenMode) (good : Bool) (st : Store) :
    (openByName name mode good st).1 = if good then some st.next else none := by
  cases good <;> rfl

theorem openByName_flag (name : String) (mode : OpenMode) (good : Bool) (st : Store) :
    (openByName name mode good st).2.1 = good := by
  cases good <;> rfl

theorem openByName_next (name : String) (mode : OpenMode) (good : Bool) (st : Store) :
    (openByName name mode good st).2.2.next = st.next + 1 := by
  cases good <;> rfl

theorem openByName_openedNames (name : String) (mode : OpenMode) (good : Bool) (st : Store) :
    openedNames (openByName name mode good st).2.2.events
      = openedNames st.events ++ [name] := by
  cases good <;> simp [openByName, newOfstream, deleteStream, openedNames]

theorem openByName_goodAddrs (name : String) (mode : OpenMode) (good : Bool) (st : Store) :
    goodAddrs (openByName name mode good st).2.2.events
      = goodAddrs st.events ++ (if good then [st.next] else []) := by
  cases good <;> simp [openByName, newOfstream, deleteStream, goodAddrs]

theorem openLevel_slot (file : String) (mode : OpenMode) (good : Bool) (st : Store) :
    (openLevel file mode good st).1
      = if file = "" then none else if good then some st.next else none := by
  unfold openLevel
  split_ifs <;> simp_all [openByName_slot]

theorem openLevel_flag (file : String) (mode : OpenMode) (good : Bool) (st : Store) :
    (openLevel file mode good st).2.1 = if file = "" then false else good := by
  unfold openLevel
  split_ifs <;> simp_all [openByName_flag]

theorem openLevel_next (file : String) (mode : OpenMode) (good : Bool) (st : Store) :
    (openLevel file mode good st).2.2.next = if file = "" then st.next else st.next + 1 := by
  unfold openLevel
  split_ifs <;> simp_all [openByName_next]

theorem openLevel_openedNames (file : String) (mode : OpenMode) (good : Bool) (st : Store) :
    openedNames (openLevel file mode good st).2.2.events
      = openedNames st.events ++ (if file = "" then [] else [file]) := by
  unfold openLevel
  split_ifs <;> simp_all [openByName_openedNames]

theorem openLevel_goodAddrs (file : String) (mode : OpenMode) (good : Bool) (st : Store) :
    goodAddrs (openLevel file mode good st).2.2.events
      = goodAddrs st.events ++ (if file = "" then [] else if good then [st.next] else []) := by
  unfold openLevel
  split_ifs <;> simp_all [openByName_goodAddrs]

theorem openWrnShared_slot (w l : String) (mode : OpenMode) (good : Bool)
    (log_out : Option Nat) (st : Store) :
    (openWrnShared w l mode good log_out st).1
      = if w = "" then none else if w = l then log_out
        else if good then some st.next else none := by
  unfold openWrnShared
  split_ifs <;> simp_all [openByName_slot]

theorem openWrnShared_flag (w l : String) (mode : OpenMode) (good : Bool)
    (log_out : Option Nat) (st : Store) :
    (openWrnShared w l mode good log_out st).2.1
      = if w = "" then false else if w = l then false else good := by
  unfold openWrnShared
  split_ifs <;> simp_all [openByName_flag]

theorem openWrnShared_next (w l : String) (mode : OpenMode) (good : Bool)
    (log_out : Option Nat) (st : Store) :
    (openWrnShared w l mode good log_out st).2.2.next
      = if w = "" then st.next else if w = l then st.next else st.next + 1 := by
  unfold openWrnShared
  split_ifs <;> simp_all [openByName_next]

theorem openWrnShared_openedNames (w l : String) (mode : OpenMode) (good : Bool)
    (log_out : Option Nat) (st : Store) :
    openedNames (openWrnShared w l mode good log_out st).2.2.events
      = openedNames st.events ++ (if w = "" then [] else if w = l then [] else [w]) := by
  unfold openWrnShared
  split_ifs <;> simp_all [openByName_openedNames]

theorem openWrnShared_goodAddrs (w l : String) (mode : OpenMode) (good : Bool)
    (log_out : Option Nat) (st : Store) :
    goodAddrs (openWrnShared w l mode good log_out st).2.2.events
      = goodAddrs st.events
        ++ (if w = "" then [] else if w = l then [] else if good then [st.next] else []) := by
  unfold openWrnShared
  split_ifs <;> simp_all [openByName_goodAddrs]

theorem openErrShared_slot (e l w : String) (mode : OpenMode) (good : Bool)
    (log_out wrn_out : Option Nat) (st : Store) :
    (openErrShared e l w mode good log_out wrn_out st).1
      = if e = "" then none else if e = l then log_out else if e = w then wrn_out
        else if good then some st.next else none := by
  unfold openErrShared
  split_ifs <;> simp_all [openByName_slot]

theorem openErrShared_flag (e l w : String) (mode : OpenMode) (good : Bool)
    (log_out wrn_out : Option Nat) (st : Store) :
    (openErrShared e l w mode good log_out wrn_out st).2.1
      = if e = "" then false else if e = l then false else if e = w then false else good := by
  unfold openErrShared
  split_ifs <;> simp_all [openByName_flag]

theorem openErrShared_next (e l w : String) (mode : OpenMode) (good : Bool)
    (log_out wrn_out : Option Nat) (st : Store) :
    (openErrShared e l w mode good log_out wrn_out st).2.2.next
      = if e = "" then st.next else if e = l then st.next else if e = w then st.next
        else st.next + 1 := by
  unfold openErrShared
  split_ifs <;> simp_all [openByName_next]

theorem openErrShared_openedNames (e l w : String) (mode : OpenMode) (good : Bool)
    (log_out wrn_out : Option Nat) (st : Store) :
    openedNames (openErrShared e l w mode good log_out wrn_out st).2.2.events
      = openedNames st.events
        ++ (if e = "" then [] else if e = l then [] else if e = w then [] else [e]) := by
  unfold openErrShared
  split_ifs <;> simp_all [openByName_openedNames]

theorem openErrShared_goodAddrs (e l w : String) (mode : OpenMode) (good : Bool)
    (log_out wrn_out : Option Nat) (st : Store) :
    goodAddrs (openErrShared e l w mode good log_out wrn_out st).2.2.events
      = goodAddrs st.events
        ++ (if e = "" then [] else if e = l then [] else if e = w then []
            else if good then [st.next] else []) := by
  unfold openErrShared
  split_ifs <;> simp_all [openByName_goodAddrs]

theorem notify_onLogStart_next (s : StdLogger) (st : Store) :
    (s.notify onLogStart st).next = st.next := rfl

theorem notify_onLogStart_openedNames (s : StdLogger) (st : Store) :
    openedNames (s.notify onLogStart st).events = openedNames st.events := by
  simp [StdLogger.notify, onLogStart, openedNames]

theorem notify_onLogStart_goodAddrs (s : StdLogger) (st : Store) :
    goodAddrs (s.notify onLogStart st).events = goodAddrs st.events := by
  simp [StdLogger.notify, onLogStart, goodAddrs]

theorem start_openedNames (next : Nat) : openedNames (Store.start next).events = [] := rfl

theorem start_goodAddrs (next : Nat) : goodAddrs (Store.start next).events = [] := rfl

theorem start_next (next : Nat) : (Store.start next).next = next := rfl

/-- The addresses the destructor releases, read off the slots and flags. -/
theorem destroy_deletedAddrs (s : StdLogger) (next : Nat) :
    deletedAddrs (s.destroy (Store.start next)).events
      = (if s.l_del then s.log_out.toList else [])
        ++ (if s.w_del then s.wrn_out.toList else [])
        ++ (if s.e_del then s.err_out.toList else []) := by
  obtain ⟨lo, wo, eo, ld, wd, ed⟩ := s
  cases ld <;> cases wd <;> cases ed <;> cases lo <;> cases wo <;> cases eo <;>
    simp [StdLogger.destroy, deleteIfOwned, deleteStream, onLogFinish, StdLogger.notify,
      deletedAddrs, Store.start]

/-- The three-name constructor tries each distinct non-empty name once, and no other name. -/
theorem ctorName3_openedNames (l w e : String) (mode : OpenMode) (good : Opens) (next : Nat)
    (s : StdLogger) (st : Store)
    (h : StdLogger.ctorName3 l w e mode good (Store.start next) = (s, st)) :
    (openedNames st.events).Nodup ∧
      ∀ n : String, n ∈ openedNames st.events ↔ n ≠ "" ∧ (n = l ∨ n = w ∨ n = e) := by
  simp only [StdLogger.ctorName3] at h
  obtain ⟨rfl, rfl⟩ := h
  simp only [notify_onLogStart_openedNames, openErrShared_openedNames,
    openWrnShared_openedNames, openLevel_openedNames, start_openedNames, List.nil_append]
  split_ifs <;> aesop

set_option linter.unnecessarySeqFocus false in
/-- In the three-name constructor a set flag sits on a present slot, two set flags sit on
different streams, and the destructor deletes the streams opened successfully, each once. -/
theorem ctorName3_owned (l w e : String) (mode : OpenMode) (good : Opens) (next : Nat)
    (s : StdLogger) (st : Store)
    (h : StdLogger.ctorName3 l w e mode good (Store.start next) = (s, st)) :
    ((s.l_del = true → s.log_out.isSome = true) ∧
      (s.w_del = true → s.wrn_out.isSome = true) ∧
      (s.e_del = true → s.err_out.isSome = true)) ∧
    ((s.l_del = true → s.w_del = true → s.log_out ≠ s.wrn_out) ∧
      (s.l_del = true → s.e_del = true → s.log_out ≠ s.err_out) ∧
      (s.w_del = true → s.e_del = true → s.wrn_out ≠ s.err_out)) ∧
    (deletedAddrs (s.destroy (Store.start st.next)).events = goodAddrs st.events ∧
      (goodAddrs st.events).Nodup) := by
  obtain ⟨gl, gw, ge⟩ := good
  simp only [StdLogger.ctorName3] at h
  obtain ⟨rfl, rfl⟩ := h
  simp only [destroy_deletedAddrs, notify_onLogStart_goodAddrs, notify_onLogStart_next,
    openErrShared_slot, openWrnShared_slot, openLevel_slot,
    openErrShared_flag, openWrnShared_flag, openLevel_flag,
    openErrShared_next, openWrnShared_next, openLevel_next,
    openErrShared_goodAddrs, openWrnShared_goodAddrs, openLevel_goodAddrs,
    start_goodAddrs, start_next, List.nil_append]
  refine ⟨⟨?_, ?_, ?_⟩, ⟨?_, ?_, ?_⟩, ?_, ?_⟩
  · by_cases hl : l = "" <;> cases gl <;> simp [hl]
  · by_cases hw : w = "" <;> by_cases hwl : w = l <;> cases gw <;> simp [hw, hwl]
  · by_cases he : e = "" <;> by_cases hel : e = l <;> by_cases hew : e = w <;> cases ge <;>
      simp [he, hel, hew]
  · by_cases hl : l = "" <;> by_cases hw : w = "" <;> by_cases hwl : w = l <;>
      cases gl <;> cases gw <;> simp [hl, hw, hwl]
  · by_cases hl : l = "" <;> by_cases hw : w = "" <;> by_cases hwl : w = l <;>
      by_cases he : e = "" <;> by_cases hel : e = l <;> by_cases hew : e = w <;>
      cases gl <;> cases ge <;> simp [hl, hw, hwl, he, hel, hew] <;> omega
  · by_cases hl : l = "" <;> by_cases hw : w = "" <;> by_cases hwl : w = l <;>
      by_cases he : e = "" <;> by_cases hel : e = l <;> by_cases hew : e = w <;>
      cases gw <;> cases ge <;> simp [hl, hw, hwl, he, hel, hew]
  · congr 1
    · congr 1
      · by_cases hl : l = "" <;> cases gl <;> simp [hl]
      · by_cases hw : w = "" <;> by_cases hwl : w = l <;> cases gw <;> simp [hw, hwl]
    · by_cases he : e = "" <;> by_cases hel : e = l <;> by_cases hew : e = w <;> cases ge <;>
        simp [he, hel, hew]
  · by_cases hl : l = "" <;> by_cases hw : w = "" <;> by_cases hwl : w = l <;>
      by_cases he : e = "" <;> by_cases hel : e = l <;> by_cases hew : e = w <;>
      cases gl <;> cases gw <;> cases ge <;> simp [hl, hw, hwl, he, hel, hew] <;> omega

/-- C6: for the three-name constructor, for all names and all outcomes of opening the files:
two levels given the same non-empty name end up with the same destination, the later slot
being the earlier one, and each distinct non-empty name is opened once; every ownership flag
that is set belongs to a present slot, and no two set flags refer to the same destination;
hence the destructor releases exactly the streams this constructor opened successfully, each
once, and nothing else. -/
theorem StdLogger.ctorName3_aliases_and_owns_once (l w e : String) (mode : OpenMode)
    (good : Opens) (next : Nat) (s : StdLogger) (st : Store)
    (h : StdLogger.ctorName3 l w e mode good (Store.start next) = (s, st)) :
    ((w = l → w ≠ "" → s.wrn_out = s.log_out) ∧
      (e = l → e ≠ "" → s.err_out = s.log_out) ∧
      (e = w → e ≠ "" → s.err_out = s.wrn_out)) ∧
    ((openedNames st.events).Nodup ∧
      ∀ n : String, n ∈ openedNames st.events ↔ n ≠ "" ∧ (n = l ∨ n = w ∨ n = e)) ∧
    ((s.l_del = true → s.log_out.isSome = true) ∧
      (s.w_del = true → s.wrn_out.isSome = true) ∧
      (s.e_del = true → s.err_out.isSome = true)) ∧
    ((s.l_del = true → s.w_del = true → s.log_out ≠ s.wrn_out) ∧
      (s.l_del = true → s.e_del = true → s.log_out ≠ s.err_out) ∧
      (s.w_del = true → s.e_del = true → s.wrn_out ≠ s.err_out)) ∧
    (deletedAddrs (s.destroy (Store.start st.next)).events = goodAddrs st.events ∧
      (goodAddrs st.events).Nodup) := by
  refine ⟨?_, ctorName3_openedNames l w e mode good next s st h,
    ctorName3_owned l w e mode good next s st h⟩
  simp only [StdLogger.ctorName3] at h
  obtain ⟨rfl, rfl⟩ := h
  simp only [openErrShared_slot, openWrnShared_slot, openLevel_slot]
  refine ⟨?_, ?_, ?_⟩
  · intro h1 h2; subst h1; simp [h2]
  · intro h1 h2; subst h1; simp [h2]
  · intro h1 h2; subst h1; simp only [if_neg h2, if_true]; split_ifs <;> rfl

/-- C6 at concrete names: the info and warning levels share `a.log`, the error level has
`e.log`, every open succeeds, the store hands out addresses from 10. -/
theorem StdLogger.ctorName3_aliases_and_owns_once_witness :
    StdLogger.ctorName3 "a.log" "a.log" "e.log" 0 ⟨true, true, true⟩ (Store.start 10)
        = (⟨some 10, some 10, some 11, true, false, true⟩,
           ⟨12, [.opened 10 "a.log" 16 true, .opened 11 "e.log" 16 true,
                 .logStart true false true]⟩) ∧
      deletedAddrs ((⟨some 10, some 10, some 11, true, false, true⟩ : StdLogger).destroy
          (Store.start 12)).events = [10, 11] :=
  ⟨by decide,
   (StdLogger.ctorName3_aliases_and_owns_once "a.log" "a.log" "e.log" 0 ⟨true, true, true⟩ 10
      ⟨some 10, some 10, some 11, true, false, true⟩
      ⟨12, [.opened 10 "a.log" 16 true, .opened 11 "e.log" 16 true, .logStart true false true]⟩
      (by decide)).2.2.2.2.1.trans (by decide)⟩

/-! ## The two-name constructor and the copy constructor at shared names -/

/-- C7, the code at the failing input `StdLogger("a.log", "a.log", e_out)` with both opens
succeeding (store addresses from 10, `e_out` living at address 3): the two-name constructor
opens `a.log` twice, puts two different streams in the info and warning slots and sets both
ownership flags, whereas the three-name constructor, given the same two names, opens the file
once, makes the warning slot the info slot and sets one flag. -/
theorem StdLogger.ctorName2_opens_shared_name_twice :
    (StdLogger.ctorName2 "a.log" "a.log" 3 0 ⟨true, true, true⟩ (Store.start 10)).1
        = ⟨some 10, some 11, some 3, true, true, false⟩ ∧
      openedNames
          (StdLogger.ctorName2 "a.log" "a.log" 3 0 ⟨true, true, true⟩ (Store.start 10)).2.events
        = ["a.log", "a.log"] ∧
      (StdLogger.ctorName3 "a.log" "a.log" "" 0 ⟨true, true, true⟩ (Store.start 10)).1
        = ⟨some 10, some 10, none, true, false, false⟩ ∧
      openedNames
          (StdLogger.ctorName3 "a.log" "a.log" "" 0 ⟨true, true, true⟩ (Store.start 10)).2.events
        = ["a.log"] := by
  decide

/-- C8, the code at the failing input: the source is `StdLogger("a.log", "a.log", "")` with
the open succeeding (stream at address 10, owned through the info slot and shared by the
warning slot). Its copy owns nothing, but the warning slot of the copy is the stream at
address 10, which the source owns; destroying the source releases address 10, which the copy
still holds. -/
theorem StdLogger.copy_keeps_aliased_owned_stream :
    (StdLogger.ctorName3 "a.log" "a.log" "" 0 ⟨true, true, true⟩ (Store.start 10)).1
        = ⟨some 10, some 10, none, true, false, false⟩ ∧
      (StdLogger.copy ⟨some 10, some 10, none, true, false, false⟩ (Store.start 11)).1
        = ⟨none, some 10, none, false, false, false⟩ ∧
      deletedAddrs ((⟨some 10, some 10, none, true, false, false⟩ : StdLogger).destroy
          (Store.start 11)).events = [10] := by
  decide

/-! ## Section brackets: a failure in the body -/

/-- C9: for every section bracket (`ILS_SECTB` ... `ILS_SECTE`, or the indexed `ILS_SECTBI`
... `ILS_SECTEI`) whose body raises a failure `F`: what the bracket does after the body is
exactly one `wrn` call with id `"SectException"`, whose arguments are `SectId()` of the
section object and the description of `F` (`e.what()` for a `std::exception`, `"unknown"`
for any other failure), then the destructor of the section object; neither `SectCheck` nor
`SectEnd` is invoked (the outcome is the same whatever these two members are); and the same
failure `F` propagates to the caller. -/
theorem ILS_SECT_body_failure_warns_and_rethrows {W A : Type} (printf : Printf)
    (self : ILogger W) (construct : TLoggerStreamCtor W A) (SECTID : Msg)
    (INDEX_B INDEX_E : Int) (LOG_ARG_B LOG_ARG_E : A) (body : W → Res W Unit)
    (oSection : TLoggerStream W A) (F : Failure) (w w0 w1 w2 w3 : W)
    (hctor : construct self SECTID none w = .ret oSection w0)
    (hctorI : construct self SECTID (some INDEX_B) w = .ret oSection w0)
    (hbegin : oSection.SectBegin LOG_ARG_B w0 = .ret () w1)
    (hflush : oSection.Flush w1 = .ret () w2)
    (hbody : body w2 = .raise F w3) :
    (ILS_SECTB_SECTE printf self construct SECTID LOG_ARG_B LOG_ARG_E body w
        = .raise F (oSection.destroy
            (ILogger.wrn printf self "SectException".toList sectExceptionFormat
              [.text oSection.SectId, .text F.describe] w3).world) ∧
      ILS_SECTBI_SECTEI printf self construct SECTID INDEX_B INDEX_E LOG_ARG_B LOG_ARG_E body w
        = .raise F (oSection.destroy
            (ILogger.wrn printf self "SectException".toList sectExceptionFormat
              [.text oSection.SectId, .text F.describe] w3).world)) ∧
    (∀ (check : Msg → Int → W → Res W Unit) (finish : A → W → Res W Unit),
      ILS_SECTB_SECTE printf self
          (fun _ _ _ _ => .ret { oSection with SectCheck := check, SectEnd := finish } w0)
          SECTID LOG_ARG_B LOG_ARG_E body w
        = ILS_SECTB_SECTE printf self construct SECTID LOG_ARG_B LOG_ARG_E body w ∧
      ILS_SECTBI_SECTEI printf self
          (fun _ _ _ _ => .ret { oSection with SectCheck := check, SectEnd := finish } w0)
          SECTID INDEX_B INDEX_E LOG_ARG_B LOG_ARG_E body w
        = ILS_SECTBI_SECTEI printf self construct SECTID INDEX_B INDEX_E LOG_ARG_B LOG_ARG_E
            body w) := by
  obtain ⟨w4, hwrn⟩ := (ILogger.leveled_wrn_returns printf self "SectException".toList
    sectExceptionFormat [.text oSection.SectId, .text F.describe] w3)
  have key : ∀ o : TLoggerStream W A, o.SectId = oSection.SectId →
      sectTry printf self o body w2 = .raise F w4 := by
    intro o ho
    cases F with
    | stdException what =>
      simp only [sectTry, hbody, ho]
      simp only [Failure.describe] at hwrn
      rw [hwrn]
      rfl
    | other tag =>
      simp only [sectTry, hbody, ho]
      simp only [Failure.describe] at hwrn
      rw [hwrn]
      rfl
  refine ⟨⟨?_, ?_⟩, ?_⟩
  · simp only [ILS_SECTB_SECTE, hctor, Res.andThen, withObject, hbegin, hflush,
      key oSection rfl, hwrn, Res.world]
  · simp only [ILS_SECTBI_SECTEI, hctorI, Res.andThen, withObject, hbegin, hflush,
      key oSection rfl, hwrn, Res.world]
  · intro check finish
    constructor
    · simp only [ILS_SECTB_SECTE, hctor, Res.andThen, withObject, hbegin, hflush,
        key oSection rfl, key { oSection with SectCheck := check, SectEnd := finish } rfl]
    · simp only [ILS_SECTBI_SECTEI, hctorI, Res.andThen, withObject, hbegin, hflush,
        key oSection rfl, key { oSection with SectCheck := check, SectEnd := finish } rfl]

/-- C9 at a concrete bracket: logger and section object write a record; the body throws a
`std::exception`. The record shows one `wrnOut` line for `SectException` after the body, no
`SectCheck` and no `SectEnd` line, and the failure of the body comes out of the bracket. -/
theorem ILS_SECT_body_failure_warns_and_rethrows_witness :
    ILS_SECTBI_SECTEI plainPrintf noteLogger noteSectionCtor "Load".toList 1 1 () () failingBody []
      = .raise (.stdException "disk full".toList)
          ["TLoggerStream", "SectBegin", "Flush", "body", "wrnOut SectException",
            "~TLoggerStream"] :=
  (ILS_SECT_body_failure_warns_and_rethrows plainPrintf noteLogger noteSectionCtor
    "Load".toList 1 1 () () failingBody (noteSection "Load".toList)
    (.stdException "disk full".toList) [] ["TLoggerStream"] ["TLoggerStream", "SectBegin"]
    ["TLoggerStream", "SectBegin", "Flush"] ["TLoggerStream", "SectBegin", "Flush", "body"]
    rfl rfl rfl rfl rfl).1.2.trans (by decide)

/-! ## Name-based constructors: empty names and failed opens -/

set_option maxHeartbeats 1000000 in
/-- C10: for every name-based `StdLogger` constructor (one, two or three names), every level
given by name and every outcome of opening the files: construction completes; if the name is
empty, no open is attempted for it and the level has no destination and no ownership flag; if
the name is non-empty and the open of its file fails, the level has no destination and no
ownership flag; and the other levels are set up as if that level had succeeded: the levels
given as streams are those streams, and a level with another file name has the same slot and
flag as in the construction where the failed open succeeds, and the same presence and flag as
in the construction where the empty name is a name of its own whose open succeeds. -/
theorem StdLogger.named_levels_degrade_locally (l w e : String) (w_out e_out : Nat)
    (mode : OpenMode) (good : Opens) (st : Store) :
    ((∃ s st1, StdLogger.ctorName1 l w_out e_out mode good st = (s, st1)) ∧
      (∃ s st1, StdLogger.ctorName2 l w e_out mode good st = (s, st1)) ∧
      (∃ s st1, StdLogger.ctorName3 l w e mode good st = (s, st1))) ∧
    ((l = "" →
          (StdLogger.ctorName1 l w_out e_out mode good st).1.log_out = none ∧
          (StdLogger.ctorName1 l w_out e_out mode good st).1.l_del = false ∧
          openedNames (StdLogger.ctorName1 l w_out e_out mode good st).2.events
            = openedNames st.events) ∧
      (l ≠ "" → good.l = false →
          (StdLogger.ctorName1 l w_out e_out mode good st).1.log_out = none ∧
          (StdLogger.ctorName1 l w_out e_out mode good st).1.l_del = false) ∧
      ((StdLogger.ctorName1 l w_out e_out mode good st).1.wrn_out = some w_out ∧
        (StdLogger.ctorName1 l w_out e_out mode good st).1.w_del = false ∧
        (StdLogger.ctorName1 l w_out e_out mode good st).1.err_out = some e_out ∧
        (StdLogger.ctorName1 l w_out e_out mode good st).1.e_del = false)) ∧
    (((l = "" →
          (StdLogger.ctorName2 l w e_out mode good st).1.log_out = none ∧
          (StdLogger.ctorName2 l w e_out mode good st).1.l_del = false) ∧
        (w = "" →
          (StdLogger.ctorName2 l w e_out mode good st).1.wrn_out = none ∧
          (StdLogger.ctorName2 l w e_out mode good st).1.w_del = false) ∧
        openedNames (StdLogger.ctorName2 l w e_out mode good st).2.events
          = openedNames st.events ++ (if l = "" then [] else [l])
              ++ (if w = "" then [] else [w])) ∧
      ((l ≠ "" → good.l = false →
          (StdLogger.ctorName2 l w e_out mode good st).1.log_out = none ∧
          (StdLogger.ctorName2 l w e_out mode good st).1.l_del = false) ∧
        (w ≠ "" → good.w = false →
          (StdLogger.ctorName2 l w e_out mode good st).1.wrn_out = none ∧
          (StdLogger.ctorName2 l w e_out mode good st).1.w_del = false)) ∧
      ((StdLogger.ctorName2 l w e_out mode good st).1.err_out = some e_out ∧
        (StdLogger.ctorName2 l w e_out mode good st).1.e_del = false) ∧
      (((StdLogger.ctorName2 l w e_out mode { good with l := true } st).1.wrn_out
            = (StdLogger.ctorName2 l w e_out mode good st).1.wrn_out ∧
          (StdLogger.ctorName2 l w e_out mode { good with l := true } st).1.w_del
            = (StdLogger.ctorName2 l w e_out mode good st).1.w_del) ∧
        ((StdLogger.ctorName2 l w e_out mode { good with w := true } st).1.log_out
            = (StdLogger.ctorName2 l w e_out mode good st).1.log_out ∧
          (StdLogger.ctorName2 l w e_out mode { good with w := true } st).1.l_del
            = (StdLogger.ctorName2 l w e_out mode good st).1.l_del)) ∧
      ((l = "" → ∀ n : String, n ≠ "" →
          (StdLogger.ctorName2 n w e_out mode { good with l := true } st).1.wrn_out.isSome
            = (StdLogger.ctorName2 l w e_out mode good st).1.wrn_out.isSome ∧
          (StdLogger.ctorName2 n w e_out mode { good with l := true } st).1.w_del
            = (StdLogger.ctorName2 l w e_out mode good st).1.w_del) ∧
        (w = "" → ∀ n : String, n ≠ "" →
          (StdLogger.ctorName2 l n e_out mode { good with w := true } st).1.log_out
            = (StdLogger.ctorName2 l w e_out mode good st).1.log_out ∧
          (StdLogger.ctorName2 l n e_out mode { good with w := true } st).1.l_del
            = (StdLogger.ctorName2 l w e_out mode good st).1.l_del))) ∧
    (((l = "" →
          (StdLogger.ctorName3 l w e mode good st).1.log_out = none ∧
          (StdLogger.ctorName3 l w e mode good st).1.l_del = false) ∧
        (w = "" →
          (StdLogger.ctorName3 l w e mode good st).1.wrn_out = none ∧
          (StdLogger.ctorName3 l w e mode good st).1.w_del = false) ∧
        (e = "" →
          (StdLogger.ctorName3 l w e mode good st).1.err_out = none ∧
          (StdLogger.ctorName3 l w e mode good st).1.e_del = false) ∧
        openedNames (StdLogger.ctorName3 l w e mode good st).2.events
          = openedNames st.events ++ (if l = "" then [] else [l])
              ++ (if w = "" then [] else if w = l then [] else [w])
              ++ (if e = "" then [] else if e = l then [] else if e = w then [] else [e])) ∧
      ((l ≠ "" → good.l = false →
          (StdLogger.ctorName3 l w e mode good st).1.log_out = none ∧
          (StdLogger.ctorName3 l w e mode good st).1.l_del = false) ∧
        (w ≠ "" → (if w = l then good.l else good.w) = false →
          (StdLogger.ctorName3 l w e mode good st).1.wrn_out = none ∧
          (StdLogger.ctorName3 l w e mode good st).1.w_del = false) ∧
        (e ≠ "" → (if e = l then good.l else if e = w then good.w else good.e) = false →
          (StdLogger.ctorName3 l w e mode good st).1.err_out = none ∧
          (StdLogger.ctorName3 l w e mode good st).1.e_del = false))) ∧
    (((w ≠ l →
            (StdLogger.ctorName3 l w e mode { good with l := true } st).1.wrn_out
              = (StdLogger.ctorName3 l w e mode good st).1.wrn_out ∧
            (StdLogger.ctorName3 l w e mode { good with l := true } st).1.w_del
              = (StdLogger.ctorName3 l w e mode good st).1.w_del) ∧
          (e ≠ l →
            (StdLogger.ctorName3 l w e mode { good with l := true } st).1.err_out
              = (StdLogger.ctorName3 l w e mode good st).1.err_out ∧
            (StdLogger.ctorName3 l w e mode { good with l := true } st).1.e_del
              = (StdLogger.ctorName3 l w e mode good st).1.e_del)) ∧
        ((StdLogger.ctorName3 l w e mode { good with w := true } st).1.log_out
              = (StdLogger.ctorName3 l w e mode good st).1.log_out ∧
            (StdLogger.ctorName3 l w e mode { good with w := true } st).1.l_del
              = (StdLogger.ctorName3 l w e mode good st).1.l_del ∧
          (e ≠ w →
            (StdLogger.ctorName3 l w e mode { good with w := true } st).1.err_out
              = (StdLogger.ctorName3 l w e mode good st).1.err_out ∧
            (StdLogger.ctorName3 l w e mode { good with w := true } st).1.e_del
              = (StdLogger.ctorName3 l w e mode good st).1.e_del)) ∧
        ((StdLogger.ctorName3 l w e mode { good with e := true } st).1.log_out
              = (StdLogger.ctorName3 l w e mode good st).1.log_out ∧
            (StdLogger.ctorName3 l w e mode { good with e := true } st).1.l_del
              = (StdLogger.ctorName3 l w e mode good st).1.l_del ∧
            (StdLogger.ctorName3 l w e mode { good with e := true } st).1.wrn_out
              = (StdLogger.ctorName3 l w e mode good st).1.wrn_out ∧
            (StdLogger.ctorName3 l w e mode { good with e := true } st).1.w_del
              = (StdLogger.ctorName3 l w e mode good st).1.w_del)) ∧
    ((l = "" → ∀ n : String, n ≠ "" → w ≠ n → e ≠ n →
          (StdLogger.ctorName3 n w e mode { good with l := true } st).1.wrn_out.isSome
            = (StdLogger.ctorName3 l w e mode good st).1.wrn_out.isSome ∧
          (StdLogger.ctorName3 n w e mode { good with l := true } st).1.w_del
            = (StdLogger.ctorName3 l w e mode good st).1.w_del ∧
          (StdLogger.ctorName3 n w e mode { good with l := true } st).1.err_out.isSome
            = (StdLogger.ctorName3 l w e mode good st).1.err_out.isSome ∧
          (StdLogger.ctorName3 n w e mode { good with l := true } st).1.e_del
            = (StdLogger.ctorName3 l w e mode good st).1.e_del) ∧
      (w = "" → ∀ n : String, n ≠ "" → n ≠ l → e ≠ n →
          (StdLogger.ctorName3 l n e mode { good with w := true } st).1.log_out
            = (StdLogger.ctorName3 l w e mode good st).1.log_out ∧
          (StdLogger.ctorName3 l n e mode { good with w := true } st).1.l_del
            = (StdLogger.ctorName3 l w e mode good st).1.l_del ∧
          (StdLogger.ctorName3 l n e mode { good with w := true } st).1.err_out.isSome
            = (StdLogger.ctorName3 l w e mode good st).1.err_out.isSome ∧
          (StdLogger.ctorName3 l n e mode { good with w := true } st).1.e_del
            = (StdLogger.ctorName3 l w e mode good st).1.e_del) ∧
      (e = "" → ∀ n : String, n ≠ "" → n ≠ l → n ≠ w →
          (StdLogger.ctorName3 l w n mode { good with e := true } st).1.log_out
            = (StdLogger.ctorName3 l w e mode good st).1.log_out ∧
          (StdLogger.ctorName3 l w n mode { good with e := true } st).1.l_del
            = (StdLogger.ctorName3 l w e mode good st).1.l_del ∧
          (StdLogger.ctorName3 l w n mode { good with e := true } st).1.wrn_out
            = (StdLogger.ctorName3 l w e mode good st).1.wrn_out ∧
          (StdLogger.ctorName3 l w n mode { good with e := true } st).1.w_del
            = (StdLogger.ctorName3 l w e mode good st).1.w_del)) := by
  refine ⟨⟨⟨_, _, rfl⟩, ⟨_, _, rfl⟩, ⟨_, _, rfl⟩⟩, ?_, ?_, ?_, ?_, ?_⟩
  · simp only [StdLogger.ctorName1, notify_onLogStart_openedNames, openLevel_slot,
      openLevel_flag, openLevel_openedNames]
    refine ⟨?_, ?_, ?_⟩
    · intro h; simp [h]
    · intro h1 h2; simp [h1, h2]
    · simp
  · obtain ⟨gl, gw, ge⟩ := good
    simp only [StdLogger.ctorName2, notify_onLogStart_openedNames, openLevel_slot,
      openLevel_flag, openLevel_openedNames, openLevel_next]
    refine ⟨⟨?_, ?_, ?_⟩, ⟨?_, ?_⟩, ?_, ?_, ⟨?_, ?_⟩⟩
    · intro h; simp [h]
    · intro h; simp [h]
    · simp
    · intro h1 h2; simp [h1, h2]
    · intro h1 h2; simp [h1, h2]
    · simp
    · simp
    · intro h n hn
      subst h
      by_cases hw : w = "" <;> cases gw <;> simp [hn, hw]
    · intro h n hn
      simp
  · obtain ⟨gl, gw, ge⟩ := good
    simp only [StdLogger.ctorName3, notify_onLogStart_openedNames,
      openErrShared_slot, openWrnShared_slot, openLevel_slot,
      openErrShared_flag, openWrnShared_flag, openLevel_flag,
      openErrShared_next, openWrnShared_next, openLevel_next,
      openErrShared_openedNames, openWrnShared_openedNames, openLevel_openedNames]
    refine ⟨⟨?_, ?_, ?_, ?_⟩, ?_, ?_, ?_⟩
    · intro h; simp [h]
    · intro h; simp [h]
    · intro h; simp [h]
    · simp
    · intro h1 h2; simp [h1, h2]
    · intro h1 h2
      by_cases hwl : w = l
      · subst hwl
        simp only [if_true] at h2
        simp [h1, h2]
      · simp only [if_neg hwl] at h2
        simp [h1, h2, hwl]
    · intro h1 h2
      by_cases hel : e = l
      · subst hel
        simp only [if_true] at h2
        simp [h1, h2]
      · by_cases hew : e = w
        · subst hew
          simp only [if_neg hel, if_true] at h2
          simp [h1, h2, hel]
        · simp only [if_neg hel, if_neg hew] at h2
          simp [h1, h2, hel, hew]
  · obtain ⟨gl, gw, ge⟩ := good
    simp only [StdLogger.ctorName3,
      openErrShared_slot, openWrnShared_slot, openLevel_slot,
      openErrShared_flag, openWrnShared_flag, openLevel_flag,
      openErrShared_next, openWrnShared_next, openLevel_next]
    refine ⟨⟨?_, ?_⟩, ⟨?_, ?_, ?_⟩, ?_, ?_, ?_, ?_⟩
    · intro h; simp [h]
    · intro h
      by_cases hew : e = w
      · subst hew; simp [h]
      · simp [h, hew]
    · simp
    · simp
    · intro h; simp [h]
    · simp
    · simp
    · simp
    · simp
  · obtain ⟨gl, gw, ge⟩ := good
    simp only [StdLogger.ctorName3,
      openErrShared_slot, openWrnShared_slot, openLevel_slot,
      openErrShared_flag, openWrnShared_flag, openLevel_flag,
      openErrShared_next, openWrnShared_next, openLevel_next]
    refine ⟨?_, ?_, ?_⟩
    · intro h n hn hwn hen
      subst h
      by_cases hw : w = "" <;> by_cases he : e = "" <;> by_cases hew : e = w <;>
        cases gw <;> cases ge <;> simp [hn, hwn, hen, hw, he, hew]
    · intro h n hn hnl hen
      subst h
      by_cases hl : l = "" <;> by_cases he : e = "" <;> by_cases hel : e = l <;>
        cases gl <;> cases ge <;> simp [hn, hnl, hen, hl, he, hel]
    · intro h n hn hnl hnw
      simp

/-- C10 (as amended) at a concrete input: the info file `a.log` cannot be opened; the info
level has neither destination nor flag. -/
theorem StdLogger.named_levels_degrade_locally_witness :
    "a.log" ≠ "" ∧ (⟨false, true, true⟩ : Opens).l = false ∧
      (StdLogger.ctorName3 "a.log" "w.log" "" 0 ⟨false, true, true⟩ (Store.start 10)).1.log_out
        = none ∧
      (StdLogger.ctorName3 "a.log" "w.log" "" 0 ⟨false, true, true⟩ (Store.start 10)).1.l_del
        = false :=
  ⟨by decide, rfl,
   (StdLogger.named_levels_degrade_locally "a.log" "w.log" "" 3 4 0 ⟨false, true, true⟩
      (Store.start 10)).2.2.2.1.2.1 (by decide) rfl⟩

/-- C10 fails as stated when two levels share a file name: with `StdLogger("a.log", "a.log",
"")` and the open of `a.log` failing, the warning level has no destination, whereas in the
construction where that open succeeds the warning level is the stream at address 10; the
warning level is not set up as if the info level had succeeded. -/
theorem StdLogger.shared_name_failure_reaches_other_level :
    (StdLogger.ctorName3 "a.log" "a.log" "" 0 ⟨false, true, true⟩ (Store.start 10)).1.wrn_out
        = none ∧
      (StdLogger.ctorName3 "a.log" "a.log" "" 0 ⟨true, true, true⟩ (Store.start 10)).1.wrn_out
        = some 10 := by
  decide

/-! ## Section brackets: a body that returns -/

/-- C11: for every section bracket whose body returns normally (the section object
constructed, `SectBegin` and `Flush` having returned), the bracket performs, in this order,
`SectBegin`, `Flush`, the body, then for the indexed variant only `SectCheck` with the
identifier and the index written at the closing macro, then `SectEnd`, then the destructor of
the section object; when these members return the bracket returns normally; and the logger
plays no part: the bracket makes no `wrn` call and its handlers raise nothing, the outcome
being the same for every logger the bracket is expanded in. -/
theorem ILS_SECT_normal_body_runs_members_in_order {W A : Type} (printf : Printf)
    (self : ILogger W) (construct : TLoggerStreamCtor W A) (SECTID : Msg)
    (INDEX_B INDEX_E : Int) (LOG_ARG_B LOG_ARG_E : A) (body : W → Res W Unit)
    (oSection : TLoggerStream W A) (w w0 w1 w2 w3 : W)
    (hctor : construct self SECTID none w = .ret oSection w0)
    (hctorI : construct self SECTID (some INDEX_B) w = .ret oSection w0)
    (hbegin : oSection.SectBegin LOG_ARG_B w0 = .ret () w1)
    (hflush : oSection.Flush w1 = .ret () w2)
    (hbody : body w2 = .ret () w3) :
    (ILS_SECTB_SECTE printf self construct SECTID LOG_ARG_B LOG_ARG_E body w
        = withObject oSection.destroy (oSection.SectEnd LOG_ARG_E) w3 ∧
      ILS_SECTBI_SECTEI printf self construct SECTID INDEX_B INDEX_E LOG_ARG_B LOG_ARG_E body w
        = withObject oSection.destroy
            (fun v => (oSection.SectCheck SECTID INDEX_E v).andThen
              fun _ v1 => oSection.SectEnd LOG_ARG_E v1) w3) ∧
    ((∀ w5 : W, oSection.SectEnd LOG_ARG_E w3 = .ret () w5 →
        ILS_SECTB_SECTE printf self construct SECTID LOG_ARG_B LOG_ARG_E body w
          = .ret () (oSection.destroy w5)) ∧
      (∀ w4 w5 : W, oSection.SectCheck SECTID INDEX_E w3 = .ret () w4 →
        oSection.SectEnd LOG_ARG_E w4 = .ret () w5 →
        ILS_SECTBI_SECTEI printf self construct SECTID INDEX_B INDEX_E LOG_ARG_B LOG_ARG_E
            body w
          = .ret () (oSection.destroy w5))) ∧
    (∀ other : ILogger W,
      ILS_SECTB_SECTE printf other (fun _ _ _ _ => .ret oSection w0)
          SECTID LOG_ARG_B LOG_ARG_E body w
        = ILS_SECTB_SECTE printf self construct SECTID LOG_ARG_B LOG_ARG_E body w ∧
      ILS_SECTBI_SECTEI printf other (fun _ _ _ _ => .ret oSection w0)
          SECTID INDEX_B INDEX_E LOG_ARG_B LOG_ARG_E body w
        = ILS_SECTBI_SECTEI printf self construct SECTID INDEX_B INDEX_E LOG_ARG_B LOG_ARG_E
            body w) := by
  have key : ∀ l : ILogger W, sectTry printf l oSection body w2 = .ret () w3 := by
    intro l
    simp only [sectTry, hbody]
  have plain : ILS_SECTB_SECTE printf self construct SECTID LOG_ARG_B LOG_ARG_E body w
      = withObject oSection.destroy (oSection.SectEnd LOG_ARG_E) w3 := by
    simp only [ILS_SECTB_SECTE, hctor, Res.andThen, withObject, hbegin, hflush, key self]
  have indexed : ILS_SECTBI_SECTEI printf self construct SECTID INDEX_B INDEX_E LOG_ARG_B
      LOG_ARG_E body w
      = withObject oSection.destroy
          (fun v => (oSection.SectCheck SECTID INDEX_E v).andThen
            fun _ v1 => oSection.SectEnd LOG_ARG_E v1) w3 := by
    simp only [ILS_SECTBI_SECTEI, hctorI, Res.andThen, withObject, hbegin, hflush, key self]
  refine ⟨⟨plain, indexed⟩, ⟨?_, ?_⟩, ?_⟩
  · intro w5 hend
    rw [plain]
    simp only [withObject, hend]
  · intro w4 w5 hcheck hend
    rw [indexed]
    simp only [withObject, hcheck, Res.andThen, hend]
  · intro other
    rw [plain, indexed]
    constructor
    · simp only [ILS_SECTB_SECTE, Res.andThen, withObject, hbegin, hflush, key other]
    · simp only [ILS_SECTBI_SECTEI, Res.andThen, withObject, hbegin, hflush, key other]

/-- C11 at a concrete indexed bracket, opened with index 1 and closed with index 2: the
record shows the members in order, `SectCheck` with the index of the closing macro, no
`wrnOut` line, and the bracket returns. -/
theorem ILS_SECT_normal_body_runs_members_in_order_witness :
    ILS_SECTBI_SECTEI plainPrintf noteLogger noteSectionCtor "Load".toList 1 2 () ()
        returningBody []
      = .ret () ["TLoggerStream", "SectBegin", "Flush", "body", "SectCheck 2", "SectEnd",
          "~TLoggerStream"] :=
  ((ILS_SECT_normal_body_runs_members_in_order plainPrintf noteLogger noteSectionCtor
    "Load".toList 1 2 () () returningBody (noteSection "Load".toList)
    [] ["TLoggerStream"] ["TLoggerStream", "SectBegin"]
    ["TLoggerStream", "SectBegin", "Flush"] ["TLoggerStream", "SectBegin", "Flush", "body"]
    rfl rfl rfl rfl rfl).2.1.2
      ["TLoggerStream", "SectBegin", "Flush", "body", "SectCheck 2"]
      ["TLoggerStream", "SectBegin", "Flush", "body", "SectCheck 2", "SectEnd"]
      (by decide) (by decide)).trans (by decide)

/-! ## `setParentLogger` -/

/-- C12, what the code does: for every state of a delegating `Logger` with a personal logger
`q` and every logger `p`, `setParentLogger(p)` leaves the parent slot as it was and stores `p`
in the personal slot, so `getPersonalLogger` returns `p` afterwards and the forwarded sink
operations are those of `p`, no longer those of `q`; at the concrete input with
`countingLogger` as personal logger and `throwingSinkLogger` passed to `setParentLogger`,
`wrnOut` raises as `throwingSinkLogger` does. -/
theorem Logger.setParentLogger_overwrites_personal_slot {W : Type} (p q : ILogger W)
    (parent : Option (ILogger W)) :
    ((Logger.mk (some q) parent).setParentLogger (some p)).parent_logger = parent ∧
      ((Logger.mk (some q) parent).setParentLogger (some p)).getPersonalLogger = some p ∧
      (Logger.mk (some q) parent).getPersonalLogger = some q ∧
      ((Logger.mk (some q) parent).setParentLogger (some p)).toILogger.wrnOut = p.wrnOut ∧
      ((Logger.mk (some countingLogger) none).setParentLogger
          (some throwingSinkLogger)).toILogger.wrnOut [] [] 0 = .raise (.other 1) 1 ∧
      (Logger.mk (some countingLogger) none).toILogger.wrnOut [] [] 0 = .ret () 1 :=
  ⟨rfl, rfl, rfl, rfl, rfl, rfl⟩

/-! ## A text of exactly `max_msg_size` characters -/

/-- A complete text shorter than `max_msg_size` passes through `vsnprintf` unmodified. -/
theorem vsnprintf_keeps_shorter_text (printf : Printf) (fmt : Msg) (marker : List Arg)
    (h : (printf fmt marker).length < max_msg_size) :
    vsnprintf printf max_msg_size fmt marker = printf fmt marker := by
  have hcap : max_msg_size = 1024 := rfl
  rw [vsnprintf]
  exact List.take_of_length_le (by omega)

/-- C13, the code at the failing input: a template of exactly 1024 letters, formatted as it
is, so that the complete text has length 1024 = `max_msg_size`; the sink operation of each
leveled call receives the first 1023 letters, not the complete text. -/
theorem ILogger.text_of_cap_length_loses_last_char :
    (plainPrintf (List.replicate 1024 'a') []).length = max_msg_size ∧
      (ILogger.inf plainPrintf (traced 0 countingLogger) [] (List.replicate 1024 'a') []
          (0, [])).world.2 = [⟨0, .inf, List.replicate 1023 'a', []⟩] ∧
      (ILogger.log plainPrintf (traced 0 countingLogger) [] (List.replicate 1024 'a') []
          (0, [])).world.2 = [⟨0, .log, List.replicate 1023 'a', []⟩] ∧
      (ILogger.wrn plainPrintf (traced 0 countingLogger) [] (List.replicate 1024 'a') []
          (0, [])).world.2 = [⟨0, .wrn, List.replicate 1023 'a', []⟩] ∧
      (ILogger.err plainPrintf (traced 0 countingLogger) [] (List.replicate 1024 'a') []
          (0, [])).world.2 = [⟨0, .err, List.replicate 1023 'a', []⟩] ∧
      List.replicate 1023 'a' ≠ plainPrintf (List.replicate 1024 'a') [] := by
  have htake : vsnprintf plainPrintf max_msg_size (List.replicate 1024 'a') []
      = List.replicate 1023 'a' := by
    show (List.replicate 1024 'a').take (1024 - 1) = List.replicate 1023 'a'
    rw [List.take_replicate]
    rfl
  have hlen : (plainPrintf (List.replicate 1024 'a') []).length = max_msg_size := by
    show (List.replicate 1024 'a').length = 1024
    rw [List.length_replicate]
  refine ⟨hlen, ?_, ?_, ?_, ?_, ?_⟩
  · simp only [ILogger.inf, traced, countingLogger, tryCatchAll, Res.andThen, Res.withCalls,
      Res.world, htake, List.nil_append]
  · simp only [ILogger.log, traced, countingLogger, tryCatchAll, Res.andThen, Res.withCalls,
      Res.world, htake, List.nil_append]
  · simp only [ILogger.wrn, traced, countingLogger, tryCatchAll, Res.andThen, Res.withCalls,
      Res.world, htake, List.nil_append]
  · simp only [ILogger.err, traced, countingLogger, tryCatchAll, Res.andThen, Res.withCalls,
      Res.world, htake, List.nil_append]
  · intro h
    have hl : (List.replicate 1023 'a').length = (List.replicate 1024 'a').length :=
      congrArg List.length h
    rw [List.length_replicate, List.length_replicate] at hl
    omega

/-! ## An escaped percent sign before `t` -/

/-- C14, the code at the failing input: the template `"100%%t"` holds no placeholder (the
escaped percent sign is followed by a plain `t`), yet the default `msgTranslate` finds `%t`
at position 4 and returns `"100%%f"`: the template is not left unchanged. -/
theorem ILogger.msgTranslateDefault_rewrites_escaped_percent :
    find "100%%t".toList ['%', 't'] = some 4 ∧
      ILogger.msgTranslateDefault 7 [] "100%%t".toList = some "100%%f".toList ∧
      "100%%f".toList ≠ "100%%t".toList := by
  decide

end ILS
